import Mathlib

/-!
# Parallel Futures: scroll narrative, charts and page widgets

A shallow embedding of the page's JavaScript:

* `buildStage3_YearProgression` of `src/js/animations.js`: the milestone table, the
  `getNearestMilestone` loop, the `onUpdate` callback of the stage-3 tween and the
  completion of a label swap;
* the submit handler of `initCalculator` in `src/js/main.js`;
* the chart constructors of `src/js/charts.js`, their triggers, and the start of the
  animations in the `DOMContentLoaded` handler;
* `updateCursor` of `initCursor` and the observer callback of `initSectionNav` in
  `src/js/main.js`.

JavaScript numbers that carry the scroll progress or a pointer position are modelled by
exact rationals; the integer-valued ones (indices, stage numbers, scores) by `Int`. The
stage-3 callback is given a second time in double-precision arithmetic (`onUpdateDouble`),
where a double is the rational it denotes and every literal and operation is rounded.
-/

namespace ParallelFutures

/-! ## Stage 3: data -/

/-- One entry of the `yearMilestones` array literal. -/
structure Milestone where
  year : String
  progress : ℚ
  urbanState : Int
  ruralState : Int
  deriving DecidableEq

/-- The array literal `yearMilestones` (animations.js, lines 143-150). -/
def yearMilestones : List Milestone :=
  [ Milestone.mk "2000" 0.15 1 0,
    Milestone.mk "2005" 0.32 1 1,
    Milestone.mk "2010" 0.48 2 1,
    Milestone.mk "2015" 0.65 3 2,
    Milestone.mk "2020" 0.82 4 3,
    Milestone.mk "2026" 1.00 4 4 ]

/-- The body of the `for` loop of `getNearestMilestone`, run over the milestones that are
still to be visited: `i` is the loop counter and `best` the running answer. -/
def nearestLoop (progress : ℚ) : List Milestone → Nat → Int → Int
  | [], _, best => best
  | m :: rest, i, best =>
      nearestLoop progress rest (i + 1) (if progress ≥ m.progress - 0.05 then (i : Int) else best)

/-- The function `getNearestMilestone(progress)`: `best` starts at `-1` and the loop visits
every milestone in order. -/
def getNearestMilestone (progress : ℚ) : Int :=
  nearestLoop progress yearMilestones 0 (-1)

/-- The array read `yearMilestones[i]` for a JavaScript number `i`; `none` stands for
`undefined`. -/
def milestoneAt (i : Int) : Option Milestone :=
  if 0 ≤ i then yearMilestones[i.toNat]? else none

/-- The threshold of the milestone at index `i`, when there is one. -/
def threshold (i : Nat) : Option ℚ :=
  (yearMilestones[i]?).map Milestone.progress

/-- Milestone `i` exists and its threshold is at most `p + 0.05`. -/
def Qualifies (p : ℚ) (i : Nat) : Prop :=
  ∃ t, threshold i = some t ∧ t ≤ p + 0.05

/-! ## Stage 3: the page elements the callback touches -/

/-- An element matched by `.hero__era-image`: whether it carries the class `era-active`,
and the inline transform last written to it as the pair (scale factor, vertical offset in
pixels). -/
structure EraImage where
  eraActive : Bool
  transform : Option (ℚ × ℚ)
  deriving DecidableEq

/-- The element `#yearDisplayAnchor`: its `innerText`, and whether its content has already
been wrapped in the `.year-inner` span. -/
structure YearAnchor where
  innerText : String
  hasInner : Bool
  deriving DecidableEq

/-- The part of the document `buildStage3_YearProgression` reads and writes. An element
looked up with `getElementById` or `querySelector` is `none` when it is absent; a node list
is a list. For `divider` and `progressFill` the inner option is the inline style value, in
percent, once it has been written. `pendingSwaps` holds, oldest first, the year texts of the
fade-out tweens started by `gsap.to` whose `onComplete` has not run yet. -/
structure Dom where
  scrollIndicator : Option Bool
  yearAnchor : Option YearAnchor
  pendingSwaps : List String
  urbanStates : List Bool
  ruralStates : List Bool
  urbanEraImgs : List EraImage
  ruralEraImgs : List EraImage
  divider : Option (Option ℚ)
  progressFill : Option (Option ℚ)
  progressLabels : List Bool
  deriving DecidableEq

/-- The two tracked dimensions. -/
inductive Dim where
  | urban
  | rural
  deriving DecidableEq

/-- The calls of interest made by one run of the callback, in order. -/
inductive Call where
  | yearSwap (newYearText : String)
  | setActiveState (dim : Dim) (index : Int)
  | setActiveEra (dim : Dim) (index : Int)
  deriving DecidableEq

/-- The closure variables `currentYearIndex`, `currentUrbanState`, `currentRuralState`. -/
structure Ctrl where
  currentYearIndex : Int
  currentUrbanState : Int
  currentRuralState : Int
  deriving DecidableEq

/-- Closure variables together with the document. -/
structure Stage3 where
  ctrl : Ctrl
  dom : Dom
  deriving DecidableEq

/-- The values the closure variables are initialised with (lines 152-154). -/
def Ctrl.init : Ctrl := Ctrl.mk (-1) 0 0

/-! ## JavaScript strings -/

/-- White space as `trim` strips it and `parseInt` skips it: the ECMAScript white-space and
line-terminator code points. -/
def isJsWhiteSpace (c : Char) : Bool :=
  let n := c.toNat
  n = 9 || n = 10 || n = 11 || n = 12 || n = 13 || n = 32 || n = 160 || n = 5760 ||
    (8192 ≤ n && n ≤ 8202) || n = 8232 || n = 8233 || n = 8239 || n = 8287 || n = 12288 ||
    n = 65279

/-- The method `trim()`: the string without its leading and trailing white space. -/
def jsTrim (s : String) : String :=
  String.mk ((s.toList.dropWhile isJsWhiteSpace).reverse.dropWhile isJsWhiteSpace).reverse

/-! ## Stage 3: the helpers and the callback -/

/-- The function `setActiveState(states, index)`: element `i` gets the class
`th-state--active` exactly when `i === index`. -/
def setActiveState (states : List Bool) (index : Int) : List Bool :=
  states.enum.map (fun x => decide ((x.1 : Int) = index))

/-- The function `setActiveEra(eraImgs, index)`: element `i` gets the class `era-active`
exactly when `i === index`. -/
def setActiveEra (eraImgs : List EraImage) (index : Int) : List EraImage :=
  eraImgs.enum.map (fun x => EraImage.mk (decide ((x.1 : Int) = index)) x.2.transform)

/-- Writing `style.transform` on the first element that carries `era-active`, which is the
element `querySelector` returns; nothing is written when there is none. -/
def setTransformOfActive (t : ℚ × ℚ) : List EraImage → List EraImage
  | [] => []
  | img :: rest =>
      if img.eraActive then EraImage.mk img.eraActive (some t) :: rest
      else img :: setTransformOfActive t rest

/-- Line 185: the scroll indicator, when present, is visible exactly when
`progress > 0.01`. -/
def toggleScrollIndicator (d : Dom) (progress : ℚ) : Dom :=
  { d with scrollIndicator := d.scrollIndicator.map (fun _ => decide (progress > 0.01)) }

/-- Lines 188-221: when the milestone index differs from `currentYearIndex` the variable is
updated and, if the anchor is present and its trimmed text differs from the new year text,
the anchor content is wrapped in the inner span (once) and a fade-out tween is started
whose completion will write the new text. -/
def yearBlock (s : Stage3) (milestoneIdx : Int) (newYearText : String) : Stage3 × List Call :=
  if milestoneIdx ≠ s.ctrl.currentYearIndex then
    let ctrl := { s.ctrl with currentYearIndex := milestoneIdx }
    match s.dom.yearAnchor with
    | none => (Stage3.mk ctrl s.dom, [])
    | some a =>
        if jsTrim a.innerText ≠ newYearText then
          (Stage3.mk ctrl
            { s.dom with
                yearAnchor := some (YearAnchor.mk a.innerText true)
                pendingSwaps := s.dom.pendingSwaps ++ [newYearText] },
           [Call.yearSwap newYearText])
        else (Stage3.mk ctrl s.dom, [])
  else (s, [])

/-- Lines 225-229 (and 236-240 with `target = 0`): the urban dimension. -/
def urbanBlock (s : Stage3) (target : Int) : Stage3 × List Call :=
  if target ≠ s.ctrl.currentUrbanState then
    (Stage3.mk { s.ctrl with currentUrbanState := target }
      { s.dom with
          urbanStates := setActiveState s.dom.urbanStates target
          urbanEraImgs := setActiveEra s.dom.urbanEraImgs target },
     [Call.setActiveState Dim.urban target, Call.setActiveEra Dim.urban target])
  else (s, [])

/-- Lines 230-234 (and 241-245 with `target = 0`): the rural dimension. -/
def ruralBlock (s : Stage3) (target : Int) : Stage3 × List Call :=
  if target ≠ s.ctrl.currentRuralState then
    (Stage3.mk { s.ctrl with currentRuralState := target }
      { s.dom with
          ruralStates := setActiveState s.dom.ruralStates target
          ruralEraImgs := setActiveEra s.dom.ruralEraImgs target },
     [Call.setActiveState Dim.rural target, Call.setActiveEra Dim.rural target])
  else (s, [])

/-- Lines 248-255: the writes made on every sample, whatever the milestone. -/
def continuousBlock (d : Dom) (progress : ℚ) (milestoneIdx : Int) : Dom :=
  { d with
      urbanEraImgs := setTransformOfActive (1.05 + progress * 0.08, -progress * 20) d.urbanEraImgs
      ruralEraImgs := setTransformOfActive (1.05 + progress * 0.04, -progress * 8) d.ruralEraImgs
      divider := d.divider.map (fun _ => some (50 + progress * 3))
      progressFill := d.progressFill.map (fun _ => some (progress * 100))
      progressLabels := d.progressLabels.enum.map (fun x => decide ((x.1 : Int) ≤ milestoneIdx)) }

/-- Lines 188-255 once the new year text and the two stage targets are known: the year
block, the two stage blocks and the writes made on every sample; the calls are collected in
order. -/
def sampleBlocks (s : Stage3) (progress : ℚ) (milestoneIdx : Int) (newYearText : String)
    (urbanTarget ruralTarget : Int) : Stage3 × List Call :=
  let r1 := yearBlock s milestoneIdx newYearText
  let r2 := urbanBlock r1.1 urbanTarget
  let r3 := ruralBlock r2.1 ruralTarget
  (Stage3.mk r3.1.ctrl (continuousBlock r3.1.dom progress milestoneIdx), r1.2 ++ r2.2 ++ r3.2)

/-- The `onUpdate` callback of the stage-3 tween for the sample `progress` (lines 183-256):
the state after the sample and the calls it made. With a milestone `m` the new year text is
`m.year` and the stage targets are `m.urbanState` and `m.ruralState`; without one they are
`'1990'`, `0` and `0`. The branch in which the array read gives `undefined` is where
JavaScript would raise a `TypeError` on the property access, which ends the callback with
the assignments made so far; `getNearestMilestone` never returns such an index. -/
def onUpdate (s : Stage3) (progress : ℚ) : Stage3 × List Call :=
  let s0 := Stage3.mk s.ctrl (toggleScrollIndicator s.dom progress)
  let milestoneIdx := getNearestMilestone progress
  if milestoneIdx ≥ 0 then
    match milestoneAt milestoneIdx with
    | some m => sampleBlocks s0 progress milestoneIdx m.year m.urbanState m.ruralState
    | none => (Stage3.mk { s0.ctrl with currentYearIndex := milestoneIdx } s0.dom, [])
  else
    sampleBlocks s0 progress milestoneIdx "1990" 0 0

/-- The closure variables a sample `p` leads to: the milestone index, and the stage numbers
of that milestone or the baseline `0` when there is none. -/
def targetCtrl (p : ℚ) : Ctrl :=
  match milestoneAt (getNearestMilestone p) with
  | some m => Ctrl.mk (getNearestMilestone p) m.urbanState m.ruralState
  | none => Ctrl.mk (getNearestMilestone p) 0 0

/-- A page as the callback first finds it: every element present, five markers and five
images per dimension with only the first active, six progress labels, the label `1990`. -/
def Dom.initial : Dom :=
  { scrollIndicator := some false
    yearAnchor := some (YearAnchor.mk "1990" false)
    pendingSwaps := []
    urbanStates := [true, false, false, false, false]
    ruralStates := [true, false, false, false, false]
    urbanEraImgs := [EraImage.mk true none, EraImage.mk false none, EraImage.mk false none,
      EraImage.mk false none, EraImage.mk false none]
    ruralEraImgs := [EraImage.mk true none, EraImage.mk false none, EraImage.mk false none,
      EraImage.mk false none, EraImage.mk false none]
    divider := some none
    progressFill := some none
    progressLabels := [false, false, false, false, false, false] }

/-- The state in which `buildStage3_YearProgression` leaves the closure and the page. -/
def Stage3.initial : Stage3 := Stage3.mk Ctrl.init Dom.initial

/-! ## Calculator: JavaScript values -/

/-- The value of the variable `score`: a number, or a string once `+=` has concatenated. -/
inductive JsVal where
  | num (n : Int)
  | str (s : String)
  deriving DecidableEq

/-- What reading a property of one of the score tables gives: the number stored under an
own key, the string form of a value inherited from `Object.prototype`, or `undefined`. -/
inductive PropVal where
  | number (n : Int)
  | inherited (text : String)
  | undefined
  deriving DecidableEq

/-- The string form of a built-in function (as V8 prints it). -/
def nativeFunctionText (name : String) : String :=
  "function " ++ name ++ "() \x7b [native code] \x7d"

/-- The function-valued properties every object literal inherits from `Object.prototype`,
other than `constructor`. -/
def objectPrototypeMethods : List String :=
  [ "hasOwnProperty", "isPrototypeOf", "propertyIsEnumerable", "toLocaleString", "toString",
    "valueOf", "__defineGetter__", "__defineSetter__", "__lookupGetter__", "__lookupSetter__" ]

/-- The keys an object literal answers through its prototype. -/
def objectPrototypeKeys : List String :=
  "__proto__" :: "constructor" :: objectPrototypeMethods

/-- The string form of the value an object literal inherits under `key`, if any:
`__proto__` is `Object.prototype` itself, `constructor` is the function `Object`. -/
def inheritedText (key : String) : Option String :=
  if key = "__proto__" then some "[object Object]"
  else if key = "constructor" then some (nativeFunctionText "Object")
  else if key ∈ objectPrototypeMethods then some (nativeFunctionText key)
  else none

/-- The property read `table[key]` on an object literal with the given own entries. -/
def getProperty (table : List (String × Int)) (key : String) : PropVal :=
  match table.lookup key with
  | some n => PropVal.number n
  | none =>
      match inheritedText key with
      | some t => PropVal.inherited t
      | none => PropVal.undefined

/-- The expression `v || 0` as an operand of `+`: `undefined` and `0` give `0`, a non-zero
number gives itself, an inherited function or object is truthy and enters `+` as its string
form. -/
def orZero : PropVal → JsVal
  | PropVal.number n => JsVal.num n
  | PropVal.inherited t => JsVal.str t
  | PropVal.undefined => JsVal.num 0

/-- The string form of a value. -/
def JsVal.text : JsVal → String
  | JsVal.num n => toString n
  | JsVal.str s => s

/-- The operator `+`: numeric addition of two numbers, concatenation otherwise. -/
def jsAdd : JsVal → JsVal → JsVal
  | JsVal.num a, JsVal.num b => JsVal.num (a + b)
  | a, b => JsVal.str (a.text ++ b.text)

/-- Conversion to a number, `none` standing for NaN. Every string `score` can hold contains
the text of a function or of an object, which is not a numeric literal. -/
def toNumber : JsVal → Option Int
  | JsVal.num n => some n
  | JsVal.str _ => none

/-- The comparison `a >= b`, false when `a` is NaN. -/
def jsGe (a : Option Int) (b : Int) : Bool :=
  match a with
  | some x => decide (x ≥ b)
  | none => false

/-- The comparison `a <= b`, false when `a` is NaN. -/
def jsLe (a : Option Int) (b : Int) : Bool :=
  match a with
  | some x => decide (x ≤ b)
  | none => false

/-- The string form of a number that may be NaN. -/
def numberText : Option Int → String
  | some n => toString n
  | none => "NaN"

/-- The value of a run of decimal digits. -/
def digitsValue (ds : List Char) : Nat :=
  ds.foldl (fun acc c => 10 * acc + (c.toNat - 48)) 0

/-- The call `parseInt(s, 10)`: leading white space is skipped, an optional sign is read,
then the longest run of decimal digits; `none` (NaN) when that run is empty. -/
def parseInt10 (s : String) : Option Int :=
  let cs := s.toList.dropWhile isJsWhiteSpace
  let negative := cs.head? = some (Char.ofNat 45)
  let body := if cs.head? = some (Char.ofNat 45) ∨ cs.head? = some (Char.ofNat 43) then cs.tail else cs
  let ds := body.takeWhile Char.isDigit
  if ds.isEmpty then none
  else if negative then some (-(digitsValue ds : Int)) else some (digitsValue ds : Int)

/-! ## Calculator: the submit handler -/

/-- The `value` of the five form controls read by the handler (lines 188-192). The controls
themselves are taken to be present, as the handler dereferences them unguarded. -/
structure CalcForm where
  locationType : String
  deviceAccess : String
  internetAccess : String
  teacherRatio : String
  schoolDistance : String
  deriving DecidableEq

/-- The result block: the text and class of `#calcScore`, the text of `#calcLabel` and of
`#calcComparison`, and whether `#calcResult` carries the class `visible`. -/
structure CalcResult where
  scoreText : String
  scoreClass : String
  labelText : String
  comparisonText : String
  visible : Bool
  deriving DecidableEq

/-- The three object literals with the per-category points. -/
def locationScores : List (String × Int) :=
  [("metro", 25), ("urban", 20), ("semi-urban", 14), ("rural", 8), ("remote", 3)]

/-- The device table (line 207). -/
def deviceScores : List (String × Int) :=
  [("multi", 25), ("single-smart", 18), ("shared", 10), ("none", 2)]

/-- The internet table (line 211). -/
def internetScores : List (String × Int) :=
  [("broadband", 25), ("mobile-data", 18), ("intermittent", 10), ("none", 2)]

/-- The distance table (line 222). -/
def distanceScores : List (String × Int) :=
  [("nearby", 10), ("walkable", 7), ("far", 4), ("very-far", 1)]

/-- The `if`/`else if` chain of lines 215-219: the points added for the teacher ratio. -/
def teacherPoints (teacherRatio : Option Int) : Int :=
  if jsLe teacherRatio 20 then 15
  else if jsLe teacherRatio 30 then 11
  else if jsLe teacherRatio 45 then 7
  else if jsLe teacherRatio 60 then 4
  else 1

/-- Lines 200-223: the variable `score` after the five `+=`. -/
def computeScore (location device internet : String) (teacherRatio : Option Int)
    (distance : String) : JsVal :=
  let score := JsVal.num 0
  let score := jsAdd score (orZero (getProperty locationScores location))
  let score := jsAdd score (orZero (getProperty deviceScores device))
  let score := jsAdd score (orZero (getProperty internetScores internet))
  let score := jsAdd score (JsVal.num (teacherPoints teacherRatio))
  jsAdd score (orZero (getProperty distanceScores distance))

/-- The constant `nationalAvg`. -/
def nationalAvg : Int := 52

/-- The variables `colorClass`, `labelText`, `comparison` set by lines 229-244. -/
structure Verdict where
  colorClass : String
  labelText : String
  comparison : String
  deriving DecidableEq

/-- Lines 229-244: the three bands. -/
def verdict (score : JsVal) : Verdict :=
  let n := toNumber score
  if jsGe n 75 then
    Verdict.mk "score-high" "High Access — Well above average"
      ("Your score of " ++ score.text ++ "/100 is " ++ numberText (n.map (fun x => x - nationalAvg))
        ++ " points above the national average of " ++ toString nationalAvg ++ ".")
  else if jsGe n 45 then
    let diff :=
      if jsGe n nationalAvg then numberText (n.map (fun x => x - nationalAvg)) ++ " points above"
      else numberText (n.map (fun x => nationalAvg - x)) ++ " points below"
    Verdict.mk "score-mid" "Moderate Access — Near national average"
      ("Your score of " ++ score.text ++ "/100 is " ++ diff ++ " the national average of "
        ++ toString nationalAvg ++ ".")
  else
    Verdict.mk "score-low" "Low Access — Below national average"
      ("Your score of " ++ score.text ++ "/100 is " ++ numberText (n.map (fun x => nationalAvg - x))
        ++ " points below the national average of " ++ toString nationalAvg
        ++ ". This reflects the systemic challenges faced by millions of students.")

/-- What one run of the submit handler does: the alert it shows, the score it computes,
the result block afterwards, and whether it scrolls the result into view. -/
structure SubmitOutcome where
  alert : Option String
  score : Option JsVal
  result : CalcResult
  scrolled : Bool
  deriving DecidableEq

/-- The submit handler (lines 184-255) run on the form values `f` with the result block in
state `r`. -/
def submit (f : CalcForm) (r : CalcResult) : SubmitOutcome :=
  let teacherRatio := parseInt10 f.teacherRatio
  if f.locationType = "" ∨ f.deviceAccess = "" ∨ f.internetAccess = "" ∨ f.schoolDistance = "" then
    SubmitOutcome.mk (some "Please fill all fields to calculate your score.") none r false
  else
    let score := computeScore f.locationType f.deviceAccess f.internetAccess teacherRatio
      f.schoolDistance
    let v := verdict score
    SubmitOutcome.mk none (some score)
      (CalcResult.mk (score.text ++ "/100") ("calc-result__score " ++ v.colorClass) v.labelText
        v.comparison true)
      true

/-- The result block before any submission: empty and not visible. -/
def CalcResult.hidden : CalcResult := CalcResult.mk "" "" "" "" false

/-- The text of the validation notice. -/
def validationNotice : String := "Please fill all fields to calculate your score."

/-- The validation of line 194 lets the submission through: no alert is shown. -/
def PassesValidation (f : CalcForm) : Prop :=
  (submit f CalcResult.hidden).alert = none

/-! ## Stage 3: sequences of samples and the label swap -/

/-- The callback run on a sequence of samples, oldest first. -/
def runSamples (s : Stage3) (samples : List ℚ) : Stage3 :=
  samples.foldl (fun st p => (onUpdate st p).1) s

/-- Among the elements of a node list, exactly the one at index `k` carries the class: `k`
is an index of the list and element `i` carries the class if and only if `i = k`. -/
def OnlyActive (flags : List Bool) (k : Int) : Prop :=
  0 ≤ k ∧ k < flags.length ∧ ∀ i : Nat, flags[i]? = some true ↔ (i : Int) = k

/-- The `onComplete` of the oldest fade-out tween (lines 211-217): the inner span gets the
text the tween was started for, and the fade-in is started with `overwrite: true`, which
kills every other tween of the span, so the fade-outs still in flight never complete. -/
def completeSwap (d : Dom) : Dom :=
  match d.pendingSwaps, d.yearAnchor with
  | t :: _, some a => { d with yearAnchor := some (YearAnchor.mk t a.hasInner), pendingSwaps := [] }
  | _, _ => d

/-- The completion of the oldest swap in the reading in which the other swaps stay in
flight: the label is its text plus the queue of swaps, and a completion sets the text to
the year the swap was started for. -/
def completeSwapQueued (d : Dom) : Dom :=
  match d.pendingSwaps, d.yearAnchor with
  | t :: rest, some a =>
      { d with yearAnchor := some (YearAnchor.mk t a.hasInner), pendingSwaps := rest }
  | _, _ => d

/-- What can happen to the label: a progress sample arrives, or the oldest swap completes. -/
inductive LabelEvent where
  | sample (p : ℚ)
  | swapDone
  deriving DecidableEq

/-- One event; `queued` selects the reading of a completion. -/
def stepLabel (queued : Bool) (s : Stage3) : LabelEvent → Stage3
  | LabelEvent.sample p => (onUpdate s p).1
  | LabelEvent.swapDone =>
      Stage3.mk s.ctrl (if queued then completeSwapQueued s.dom else completeSwap s.dom)

/-- A sequence of events, oldest first. -/
def runLabel (queued : Bool) (s : Stage3) (events : List LabelEvent) : Stage3 :=
  events.foldl (stepLabel queued) s

/-- The year the label should show for a milestone index: the year of the milestone, or
`1990` when there is none. -/
def yearOfIndex (i : Int) : String :=
  match milestoneAt i with
  | some m => m.year
  | none => "1990"

/-! ## Charts (src/js/charts.js) and start-up -/

/-- How a piece of code ended: it returned before doing its work, it did its work, or it
raised an error. -/
inductive Run where
  | skipped
  | completed
  | raised (error : String)
  deriving DecidableEq

/-- The six properties of the cache `chartInstances`, one per constructor. -/
inductive ChartKey where
  | internet2005
  | gap2015
  | dropout
  | teacher
  | internet
  | enrollment
  deriving DecidableEq

/-- The id of the canvas each constructor mounts its chart on. -/
def ChartKey.canvasId : ChartKey → String
  | ChartKey.internet2005 => "chartInternet2005"
  | ChartKey.gap2015 => "chartGap2015"
  | ChartKey.dropout => "chartDropout"
  | ChartKey.teacher => "chartTeacher"
  | ChartKey.internet => "chartInternet"
  | ChartKey.enrollment => "chartEnrollment"

/-- The `type` each constructor passes to `new Chart`. -/
def ChartKey.chartType : ChartKey → String
  | ChartKey.internet2005 => "line"
  | ChartKey.gap2015 => "bar"
  | ChartKey.dropout => "bar"
  | ChartKey.teacher => "line"
  | ChartKey.internet => "line"
  | ChartKey.enrollment => "bar"

/-- A `Chart` object: where it is mounted, its type, and how many charts had been
constructed before it, which tells two objects apart. -/
structure ChartInstance where
  canvasId : String
  chartType : String
  serial : Nat
  deriving DecidableEq

/-- The module state of charts.js: the cache `chartInstances`, and every `Chart` constructed
so far, oldest first. -/
structure Charts where
  chartInstances : ChartKey → Option ChartInstance
  constructed : List ChartInstance

/-- The state when the script has just run: `chartInstances = {}`. -/
def Charts.empty : Charts := Charts.mk (fun _ => none) []

/-- What a constructor finds when it is called: whether `getElementById` returns its canvas,
and whether the global `Chart` of the charting library exists. -/
structure ChartEnv where
  mountPresent : Bool
  chartDefined : Bool
  deriving DecidableEq

/-- The common shape of the six constructors: return when the canvas is absent or the cache
holds a chart; otherwise evaluate `new Chart(ctx, ...)`, which raises a `ReferenceError`
when `Chart` is not defined, and store the new object in the cache. -/
def createChart (k : ChartKey) (env : ChartEnv) (s : Charts) : Charts × Run :=
  if env.mountPresent = false ∨ (s.chartInstances k).isSome = true then (s, Run.skipped)
  else if env.chartDefined = false then (s, Run.raised "ReferenceError: Chart is not defined")
  else
    (Charts.mk
      (Function.update s.chartInstances k
        (some (ChartInstance.mk k.canvasId k.chartType s.constructed.length)))
      (s.constructed ++ [ChartInstance.mk k.canvasId k.chartType s.constructed.length]),
     Run.completed)

/-- The function `createInternetChart2005`. -/
def createInternetChart2005 : ChartEnv → Charts → Charts × Run := createChart ChartKey.internet2005

/-- The function `createGapChart2015`. -/
def createGapChart2015 : ChartEnv → Charts → Charts × Run := createChart ChartKey.gap2015

/-- The function `createDropoutChart`. -/
def createDropoutChart : ChartEnv → Charts → Charts × Run := createChart ChartKey.dropout

/-- The function `createTeacherChart`. -/
def createTeacherChart : ChartEnv → Charts → Charts × Run := createChart ChartKey.teacher

/-- The function `createInternetAccessChart`. -/
def createInternetAccessChart : ChartEnv → Charts → Charts × Run := createChart ChartKey.internet

/-- The function `createEnrollmentChart`. -/
def createEnrollmentChart : ChartEnv → Charts → Charts × Run := createChart ChartKey.enrollment

/-- A sequence of constructor calls, oldest first, each with what it finds. -/
def runChartCalls (s : Charts) (calls : List (ChartKey × ChartEnv)) : Charts :=
  calls.foldl (fun st c => (createChart c.1 c.2 st).1) s

/-- The charts constructed so far on the canvas of `k`. -/
def instancesFor (k : ChartKey) (s : Charts) : List ChartInstance :=
  s.constructed.filter (fun c => c.canvasId = k.canvasId)

/-- The `onEnter` of a chart trigger (animations.js, lines 292-294 and 381-385): the
constructor is called only when `window.PFCharts` exists. -/
def chartTrigger (pfCharts : Bool) (k : ChartKey) (env : ChartEnv) (s : Charts) : Charts × Run :=
  if pfCharts then createChart k env s else (s, Run.skipped)

/-- Which of the two globals of the animation library exist at some moment. -/
structure Globals where
  gsap : Bool
  scrollTrigger : Bool
  deriving DecidableEq

/-- The call `initAnimations()` as far as its collaborators go: its first statement,
`gsap.registerPlugin(ScrollTrigger)`, raises a `ReferenceError` when either global is not
defined; with both defined the function runs to its end. -/
def initAnimations (g : Globals) : Run :=
  if g.gsap = false then Run.raised "ReferenceError: gsap is not defined"
  else if g.scrollTrigger = false then Run.raised "ReferenceError: ScrollTrigger is not defined"
  else Run.completed

/-- The end of the `DOMContentLoaded` handler (main.js, lines 21-31), given the globals at
that moment and at window load: with both globals defined `initAnimations` is called at
once; otherwise a `load` listener is registered, which calls it when `gsap` is defined. -/
def startAnimations (atReady atLoad : Globals) : Run :=
  if atReady.gsap = true ∧ atReady.scrollTrigger = true then initAnimations atReady
  else if atLoad.gsap = true then initAnimations atLoad
  else Run.skipped

/-! ## Cursor follower (main.js, `initCursor`) -/

/-- The closure variables of `initCursor` and the inline position, in pixels, of the ring
(`#cursor`) and of the dot (`#cursorDot`). -/
structure CursorState where
  mouseX : ℚ
  mouseY : ℚ
  cursorX : ℚ
  cursorY : ℚ
  dotX : ℚ
  dotY : ℚ
  ringLeft : ℚ
  ringTop : ℚ
  dotLeft : ℚ
  dotTop : ℚ
  deriving DecidableEq

/-- One run of `updateCursor` (lines 58-72), that is one animation frame. -/
def updateCursor (s : CursorState) : CursorState :=
  let cursorX := s.cursorX + (s.mouseX - s.cursorX) * 0.12
  let cursorY := s.cursorY + (s.mouseY - s.cursorY) * 0.12
  let dotX := s.dotX + (s.mouseX - s.dotX) * 0.6
  let dotY := s.dotY + (s.mouseY - s.dotY) * 0.6
  { s with
      cursorX := cursorX, cursorY := cursorY, dotX := dotX, dotY := dotY
      ringLeft := cursorX, ringTop := cursorY, dotLeft := dotX, dotTop := dotY }

/-- The state after `n` frames with no `mousemove` in between. -/
def frames : Nat → CursorState → CursorState
  | 0, s => s
  | n + 1, s => frames n (updateCursor s)

/-! ## Section navigation (main.js, `initSectionNav`) -/

/-- An `IntersectionObserverEntry`: the observed section it is about, as an index into
`sections`, that section's `data-section` value, and `isIntersecting`. -/
structure NavEntry where
  target : Nat
  dataSection : String
  isIntersecting : Bool
  deriving DecidableEq

/-- The class `active` on each observed section and on each navigation dot. -/
structure NavState where
  sections : List Bool
  dots : List Bool
  deriving DecidableEq

/-- What the property read `dots[key]` gives on the node list of dots: the dot at an index,
`undefined`, or something that is neither (a property of the list itself). -/
inductive DotLookup where
  | element (i : Nat)
  | undefined
  | other
  deriving DecidableEq

/-- The string keys a `NodeList` answers besides its indices: its own properties and those
inherited from `Object.prototype`. -/
def nodeListKeys : List String :=
  ["length", "item", "entries", "forEach", "keys", "values"] ++ objectPrototypeKeys

/-- The property read `dots[key]` on a list of `n` dots: the index whose decimal form is
`key`, when it is below `n`. -/
def lookupDot (n : Nat) (key : String) : DotLookup :=
  match (List.range n).find? (fun i => toString i = key) with
  | some i => DotLookup.element i
  | none => if key ∈ nodeListKeys then DotLookup.other else DotLookup.undefined

/-- The body of the `forEach` of the observer callback for one entry (lines 115-122). For an
intersecting entry the section gets `active`, every dot loses it, and
`dots[sectionIndex]?.classList.add('active')` marks the dot found; the optional chaining
skips `undefined`, and a value that is neither a dot nor `undefined` has no `classList`, so
the call raises a `TypeError`. -/
def processEntry (s : NavState) (e : NavEntry) : NavState × Run :=
  if e.isIntersecting then
    let sections := s.sections.set e.target true
    let cleared := s.dots.map (fun _ => false)
    match lookupDot s.dots.length e.dataSection with
    | DotLookup.element i => (NavState.mk sections (cleared.set i true), Run.completed)
    | DotLookup.undefined => (NavState.mk sections cleared, Run.completed)
    | DotLookup.other =>
        (NavState.mk sections cleared,
         Run.raised "TypeError: Cannot read properties of undefined (reading 'add')")
  else
    (NavState.mk (s.sections.set e.target false) s.dots, Run.completed)

/-- The observer callback on a batch of entries: `entries.forEach`, ended by the first
error. -/
def observerCallback (s : NavState) : List NavEntry → NavState × Run
  | [] => (s, Run.completed)
  | e :: rest =>
      match processEntry s e with
      | (s1, Run.completed) => observerCallback s1 rest
      | (s1, r) => (s1, r)

/-- The last intersecting entry of a batch. -/
def lastIntersecting (entries : List NavEntry) : Option NavEntry :=
  (entries.filter (fun e => e.isIntersecting)).getLast?

/-! ## Calculator: the teacher-ratio control -/

/-- Modelled from the spec: the markup of the form is not among the sources. The form
contract of the spec makes the teacher ratio a numeric field, and the handler treats the
control as a range (`teacherRange`, "Update range display"). The value of a range control is
always the decimal form of a number: `parseInt` reads a number from it, and it is never the
empty string. -/
def IsRangeValue (v : String) : Prop :=
  ∃ t : Int, parseInt10 v = some t

/-! ## Stage 3 in double-precision arithmetic -/

/-- Rounding of a rational to an integer: to the nearest one, and to the even one at a
tie. -/
def roundHalfEven (x : ℚ) : Int :=
  if x - ⌊x⌋ < 1 / 2 then ⌊x⌋
  else if 1 / 2 < x - ⌊x⌋ then ⌊x⌋ + 1
  else if ⌊x⌋ % 2 = 0 then ⌊x⌋ else ⌊x⌋ + 1

/-- The IEEE 754 double nearest to a real number, ties to even: the number is scaled so that
its integer part has 53 bits (the exponent of the last bit not going below `-1074`, that of
the subnormal numbers) and rounded there. This is the value of a numeric literal and of the
result of one arithmetic operation on doubles; overflow to `Infinity` is not modelled. -/
def roundDouble (q : ℚ) : ℚ :=
  if q = 0 then 0
  else
    (roundHalfEven (q / 2 ^ max (Int.log 2 |q| - 52) (-1074)) : ℚ) *
      2 ^ max (Int.log 2 |q| - 52) (-1074)

/-- The right-hand side `yearMilestones[i].progress - 0.05` of the test of
`getNearestMilestone` as JavaScript evaluates it: the two literals are doubles, and so is
their difference. -/
def thresholdDouble (m : Milestone) : ℚ :=
  roundDouble (roundDouble m.progress - roundDouble 0.05)

/-- The loop of `getNearestMilestone` on a double `progress`, with the test evaluated in
double arithmetic. -/
def nearestLoopDouble (progress : ℚ) : List Milestone → Nat → Int → Int
  | [], _, best => best
  | m :: rest, i, best =>
      nearestLoopDouble progress rest (i + 1)
        (if progress ≥ thresholdDouble m then (i : Int) else best)

/-- The function `getNearestMilestone(progress)` on a double. -/
def getNearestMilestoneDouble (progress : ℚ) : Int :=
  nearestLoopDouble progress yearMilestones 0 (-1)

/-- Line 185 in double arithmetic: the literal `0.01` is a double. -/
def toggleScrollIndicatorDouble (d : Dom) (progress : ℚ) : Dom :=
  { d with scrollIndicator := d.scrollIndicator.map (fun _ => decide (progress > roundDouble 0.01)) }

/-- Lines 248-255 in double arithmetic: every literal with a fraction and the result of
every product and sum is rounded. -/
def continuousBlockDouble (d : Dom) (progress : ℚ) (milestoneIdx : Int) : Dom :=
  { d with
      urbanEraImgs := setTransformOfActive
        (roundDouble (roundDouble 1.05 + roundDouble (progress * roundDouble 0.08)),
         roundDouble (-progress * 20)) d.urbanEraImgs
      ruralEraImgs := setTransformOfActive
        (roundDouble (roundDouble 1.05 + roundDouble (progress * roundDouble 0.04)),
         roundDouble (-progress * 8)) d.ruralEraImgs
      divider := d.divider.map (fun _ => some (roundDouble (50 + roundDouble (progress * 3))))
      progressFill := d.progressFill.map (fun _ => some (roundDouble (progress * 100)))
      progressLabels := d.progressLabels.enum.map (fun x => decide ((x.1 : Int) ≤ milestoneIdx)) }

/-- Lines 188-255 in double arithmetic once the new year text and the two stage targets are
known; the year block and the stage blocks do no arithmetic. -/
def sampleBlocksDouble (s : Stage3) (progress : ℚ) (milestoneIdx : Int) (newYearText : String)
    (urbanTarget ruralTarget : Int) : Stage3 × List Call :=
  let r1 := yearBlock s milestoneIdx newYearText
  let r2 := urbanBlock r1.1 urbanTarget
  let r3 := ruralBlock r2.1 ruralTarget
  (Stage3.mk r3.1.ctrl (continuousBlockDouble r3.1.dom progress milestoneIdx),
   r1.2 ++ r2.2 ++ r3.2)

/-- The `onUpdate` callback on a double `progress`, with every comparison and operation on
numbers evaluated in double arithmetic. -/
def onUpdateDouble (s : Stage3) (progress : ℚ) : Stage3 × List Call :=
  let s0 := Stage3.mk s.ctrl (toggleScrollIndicatorDouble s.dom progress)
  let milestoneIdx := getNearestMilestoneDouble progress
  if milestoneIdx ≥ 0 then
    match milestoneAt milestoneIdx with
    | some m => sampleBlocksDouble s0 progress milestoneIdx m.year m.urbanState m.ruralState
    | none => (Stage3.mk { s0.ctrl with currentYearIndex := milestoneIdx } s0.dom, [])
  else
    sampleBlocksDouble s0 progress milestoneIdx "1990" 0 0

/-- The double `0.09999999999999999`, the last one below `0.1`. -/
def justBelowTenth : ℚ := 7205759403792793 / 2 ^ 56

/-! ## Stage 3: the milestone loop -/

/-- The loop returns either the running answer it was started with, when no milestone still
to be visited qualifies, or the counter of the last visited milestone that qualifies. -/
theorem nearestLoop_spec (p : ℚ) (ms : List Milestone) :
    ∀ (i : Nat) (best : Int),
      (nearestLoop p ms i best = best ∧ ∀ m ∈ ms, ¬ p ≥ m.progress - 0.05) ∨
      (∃ k m, ms[k]? = some m ∧ nearestLoop p ms i best = ((i + k : Nat) : Int) ∧
        p ≥ m.progress - 0.05 ∧
        ∀ k2 m2, ms[k2]? = some m2 → p ≥ m2.progress - 0.05 → k2 ≤ k) := by
  induction ms with
  | nil => intro i best; left; simp [nearestLoop]
  | cons m rest ih =>
    intro i best
    rcases ih (i + 1) (if p ≥ m.progress - 0.05 then (i : Int) else best) with
      ⟨hres, hnone⟩ | ⟨k, m1, hk, hres, hq, hmax⟩
    · by_cases hc : p ≥ m.progress - 0.05
      · right
        refine ⟨0, m, by simp, ?_, hc, ?_⟩
        · rw [if_pos hc] at hres
          simp only [nearestLoop, if_pos hc, hres, Nat.add_zero]
        · intro k2 m2 hk2 hq2
          cases k2 with
          | zero => exact le_refl _
          | succ k3 =>
            simp only [List.getElem?_cons_succ] at hk2
            exact absurd hq2 (hnone m2 (List.getElem?_mem hk2))
      · left
        refine ⟨?_, ?_⟩
        · rw [if_neg hc] at hres
          simp only [nearestLoop, if_neg hc, hres]
        · intro m2 hm2
          rcases List.mem_cons.mp hm2 with rfl | h
          · exact hc
          · exact hnone m2 h
    · right
      refine ⟨k + 1, m1, by simpa using hk, ?_, hq, ?_⟩
      · simp only [nearestLoop, hres]
        congr 1
        omega
      · intro k2 m2 hk2 hq2
        cases k2 with
        | zero => omega
        | succ k3 =>
          simp only [List.getElem?_cons_succ] at hk2
          have := hmax k3 m2 hk2 hq2
          omega

/-- The loop over the six milestones in closed form. -/
theorem getNearestMilestone_eq (p : ℚ) :
    getNearestMilestone p =
      if p ≥ 0.95 then 5 else if p ≥ 0.77 then 4 else if p ≥ 0.60 then 3
      else if p ≥ 0.43 then 2 else if p ≥ 0.27 then 1 else if p ≥ 0.10 then 0 else -1 := by
  simp only [getNearestMilestone, yearMilestones, nearestLoop]
  norm_num

/-- Membership of a milestone table entry, with the condition of the loop turned around. -/
theorem qualifies_iff (p : ℚ) (i : Nat) :
    Qualifies p i ↔ ∃ m, yearMilestones[i]? = some m ∧ p ≥ m.progress - 0.05 := by
  unfold Qualifies threshold
  constructor
  · rintro ⟨t, ht, hle⟩
    rcases Option.map_eq_some'.mp ht with ⟨m, hm, rfl⟩
    exact ⟨m, hm, by linarith⟩
  · rintro ⟨m, hm, hge⟩
    exact ⟨m.progress, by simp [hm], by linarith⟩

/-- C1: for every progress value, in exact arithmetic, `getNearestMilestone` returns the
highest index among the six milestones whose threshold is at most `p + 0.05`, and returns
`-1` exactly when no milestone has such a threshold; it returns nothing else. -/
theorem getNearestMilestone_highest_qualifying (p : ℚ) :
    (∀ i : Nat, getNearestMilestone p = (i : Int) ↔
        (Qualifies p i ∧ ∀ j : Nat, Qualifies p j → j ≤ i)) ∧
    (getNearestMilestone p = -1 ↔ ∀ i : Nat, ¬ Qualifies p i) ∧
    (getNearestMilestone p = -1 ∨ ∃ i : Nat, i ≤ 5 ∧ getNearestMilestone p = (i : Int)) := by
  simp only [qualifies_iff]
  rcases nearestLoop_spec p yearMilestones 0 (-1) with ⟨hres, hnone⟩ | ⟨k, m, hk, hres, hq, hmax⟩
  · have hno : ∀ i : Nat, ¬ ∃ m, yearMilestones[i]? = some m ∧ p ≥ m.progress - 0.05 := by
      rintro i ⟨m, hm, hge⟩
      exact hnone m (List.getElem?_mem hm) hge
    have hval : getNearestMilestone p = -1 := hres
    refine ⟨?_, ?_, Or.inl hval⟩
    · intro i
      constructor
      · intro h
        rw [hval] at h
        omega
      · rintro ⟨h, -⟩
        exact absurd h (hno i)
    · exact ⟨fun _ => hno, fun _ => hval⟩
  · have hval : getNearestMilestone p = (k : Int) := by
      have : getNearestMilestone p = ((0 + k : Nat) : Int) := hres
      simpa using this
    have hk5 : k ≤ 5 := by
      have hlt := (List.getElem?_eq_some.mp hk).1
      simp [yearMilestones] at hlt
      omega
    refine ⟨?_, ?_, Or.inr ⟨k, hk5, hval⟩⟩
    · intro i
      rw [hval]
      constructor
      · intro h
        have hik : k = i := by exact_mod_cast h
        subst hik
        exact ⟨⟨m, hk, hq⟩, fun j ⟨m2, hm2, hq2⟩ => hmax j m2 hm2 hq2⟩
      · rintro ⟨⟨m2, hm2, hq2⟩, hmaxi⟩
        have h1 : i ≤ k := hmax i m2 hm2 hq2
        have h2 : k ≤ i := hmaxi k ⟨m, hk, hq⟩
        have : k = i := le_antisymm h2 h1
        exact_mod_cast this
    · rw [hval]
      constructor
      · intro h
        omega
      · intro h
        exact absurd ⟨m, hk, hq⟩ (h k)

/-! ## Stage 3: the callback -/

/-- The closure variables a sample leads to, in closed form. -/
theorem targetCtrl_eq (p : ℚ) :
    targetCtrl p =
      if p ≥ 0.95 then Ctrl.mk 5 4 4 else if p ≥ 0.77 then Ctrl.mk 4 4 3
      else if p ≥ 0.60 then Ctrl.mk 3 3 2 else if p ≥ 0.43 then Ctrl.mk 2 2 1
      else if p ≥ 0.27 then Ctrl.mk 1 1 1 else if p ≥ 0.10 then Ctrl.mk 0 1 0
      else Ctrl.mk (-1) 0 0 := by
  unfold targetCtrl
  rw [getNearestMilestone_eq]
  split_ifs <;> simp [milestoneAt, yearMilestones]

/-- The year block assigns the milestone index and nothing else among the variables. -/
theorem yearBlock_ctrl (s : Stage3) (idx : Int) (t : String) :
    (yearBlock s idx t).1.ctrl =
      Ctrl.mk idx s.ctrl.currentUrbanState s.ctrl.currentRuralState := by
  unfold yearBlock
  split_ifs with h1
  · cases hy : s.dom.yearAnchor with
    | none => simp
    | some a => simp only []; split_ifs <;> rfl
  · simp only [ne_eq, not_not] at h1
    cases hs : s.ctrl
    simp_all

/-- The urban block leaves the urban variable at its target. -/
theorem urbanBlock_ctrl (s : Stage3) (t : Int) :
    (urbanBlock s t).1.ctrl = Ctrl.mk s.ctrl.currentYearIndex t s.ctrl.currentRuralState := by
  unfold urbanBlock
  split_ifs with h1
  · rfl
  · simp only [ne_eq, not_not] at h1
    cases hs : s.ctrl
    simp_all

/-- The rural block leaves the rural variable at its target. -/
theorem ruralBlock_ctrl (s : Stage3) (t : Int) :
    (ruralBlock s t).1.ctrl = Ctrl.mk s.ctrl.currentYearIndex s.ctrl.currentUrbanState t := by
  unfold ruralBlock
  split_ifs with h1
  · rfl
  · simp only [ne_eq, not_not] at h1
    cases hs : s.ctrl
    simp_all

/-- After the blocks the three variables hold the index and the two targets. -/
theorem sampleBlocks_ctrl (s : Stage3) (p : ℚ) (idx : Int) (t : String) (u r : Int) :
    (sampleBlocks s p idx t u r).1.ctrl = Ctrl.mk idx u r := by
  simp [sampleBlocks, ruralBlock_ctrl, urbanBlock_ctrl, yearBlock_ctrl]

/-- A non-negative result of the loop indexes a milestone. -/
theorem milestoneAt_getNearestMilestone (p : ℚ) (h : getNearestMilestone p ≥ 0) :
    ∃ m, milestoneAt (getNearestMilestone p) = some m := by
  rw [getNearestMilestone_eq] at h ⊢
  split_ifs at h ⊢ <;> first | (exact ⟨_, rfl⟩) | (exfalso; omega)

/-- A negative index reads `undefined`. -/
theorem milestoneAt_neg (i : Int) (h : ¬ i ≥ 0) : milestoneAt i = none := by
  unfold milestoneAt
  rw [if_neg]
  simpa using h

/-- The callback always runs the blocks: the new year text and the stage targets are those
of the milestone found, or `'1990'`, `0`, `0`. -/
theorem onUpdate_eq_sampleBlocks (s : Stage3) (p : ℚ) :
    onUpdate s p =
      sampleBlocks (Stage3.mk s.ctrl (toggleScrollIndicator s.dom p)) p (getNearestMilestone p)
        (match milestoneAt (getNearestMilestone p) with
          | some m => m.year
          | none => "1990")
        (targetCtrl p).currentUrbanState (targetCtrl p).currentRuralState := by
  unfold onUpdate targetCtrl
  by_cases h : getNearestMilestone p ≥ 0
  · obtain ⟨m, hm⟩ := milestoneAt_getNearestMilestone p h
    simp only [h, if_true, hm]
  · simp only [h, if_false, milestoneAt_neg _ h]

/-- After a sample the three variables are those the sample leads to. -/
theorem onUpdate_ctrl (s : Stage3) (p : ℚ) : (onUpdate s p).1.ctrl = targetCtrl p := by
  rw [onUpdate_eq_sampleBlocks, sampleBlocks_ctrl]
  unfold targetCtrl
  cases milestoneAt (getNearestMilestone p) <;> rfl

/-- The year block does nothing when the index is the current one. -/
theorem yearBlock_same (s : Stage3) (idx : Int) (t : String)
    (h : idx = s.ctrl.currentYearIndex) : yearBlock s idx t = (s, []) := by
  unfold yearBlock
  rw [if_neg (by simpa using h)]

/-- The urban block does nothing when the target is the current stage. -/
theorem urbanBlock_same (s : Stage3) (t : Int) (h : t = s.ctrl.currentUrbanState) :
    urbanBlock s t = (s, []) := by
  unfold urbanBlock
  rw [if_neg (by simpa using h)]

/-- The rural block does nothing when the target is the current stage. -/
theorem ruralBlock_same (s : Stage3) (t : Int) (h : t = s.ctrl.currentRuralState) :
    ruralBlock s t = (s, []) := by
  unfold ruralBlock
  rw [if_neg (by simpa using h)]

/-- With the variables already at the index and targets, only the writes made on every
sample remain. -/
theorem sampleBlocks_same (s : Stage3) (p : ℚ) (idx : Int) (t : String) (u r : Int)
    (h : s.ctrl = Ctrl.mk idx u r) :
    sampleBlocks s p idx t u r = (Stage3.mk s.ctrl (continuousBlock s.dom p idx), []) := by
  have h1 : idx = s.ctrl.currentYearIndex := by rw [h]
  have h2 : u = s.ctrl.currentUrbanState := by rw [h]
  have h3 : r = s.ctrl.currentRuralState := by rw [h]
  simp only [sampleBlocks, yearBlock_same s idx t h1, urbanBlock_same s u h2,
    ruralBlock_same s r h3, List.append_nil]

/-- Writing a transform does not touch the `era-active` classes. -/
theorem setTransformOfActive_flags (t : ℚ × ℚ) (imgs : List EraImage) :
    (setTransformOfActive t imgs).map EraImage.eraActive = imgs.map EraImage.eraActive := by
  induction imgs with
  | nil => rfl
  | cons img rest ih =>
    unfold setTransformOfActive
    split_ifs <;> simp [ih]

/-- A sample that finds the variables already at their values for it makes no call and
changes neither the variables, nor the label, nor its pending swaps, nor any marker. -/
theorem onUpdate_of_ctrl_eq (p : ℚ) (s : Stage3) (h : s.ctrl = targetCtrl p) :
    (onUpdate s p).2 = [] ∧ (onUpdate s p).1.ctrl = s.ctrl ∧
    (onUpdate s p).1.dom.pendingSwaps = s.dom.pendingSwaps ∧
    (onUpdate s p).1.dom.yearAnchor = s.dom.yearAnchor ∧
    (onUpdate s p).1.dom.urbanStates = s.dom.urbanStates ∧
    (onUpdate s p).1.dom.ruralStates = s.dom.ruralStates ∧
    (onUpdate s p).1.dom.urbanEraImgs.map EraImage.eraActive =
      s.dom.urbanEraImgs.map EraImage.eraActive ∧
    (onUpdate s p).1.dom.ruralEraImgs.map EraImage.eraActive =
      s.dom.ruralEraImgs.map EraImage.eraActive := by
  have hc : (Stage3.mk s.ctrl (toggleScrollIndicator s.dom p)).ctrl =
      Ctrl.mk (getNearestMilestone p) (targetCtrl p).currentUrbanState
        (targetCtrl p).currentRuralState := by
    show s.ctrl = _
    rw [h]
    unfold targetCtrl
    cases milestoneAt (getNearestMilestone p) <;> rfl
  rw [onUpdate_eq_sampleBlocks, sampleBlocks_same _ _ _ _ _ _ hc]
  simp [continuousBlock, toggleScrollIndicator, setTransformOfActive_flags]

/-- The year block leaves the divider and the progress fill alone. -/
theorem yearBlock_frame (s : Stage3) (idx : Int) (t : String) :
    (yearBlock s idx t).1.dom.divider = s.dom.divider ∧
    (yearBlock s idx t).1.dom.progressFill = s.dom.progressFill := by
  unfold yearBlock
  split_ifs with h1
  · cases hy : s.dom.yearAnchor with
    | none => simp
    | some a => simp only []; split_ifs <;> simp
  · simp

/-- The urban block leaves the divider and the progress fill alone. -/
theorem urbanBlock_frame (s : Stage3) (t : Int) :
    (urbanBlock s t).1.dom.divider = s.dom.divider ∧
    (urbanBlock s t).1.dom.progressFill = s.dom.progressFill := by
  unfold urbanBlock
  split_ifs <;> simp

/-- The rural block leaves the divider and the progress fill alone. -/
theorem ruralBlock_frame (s : Stage3) (t : Int) :
    (ruralBlock s t).1.dom.divider = s.dom.divider ∧
    (ruralBlock s t).1.dom.progressFill = s.dom.progressFill := by
  unfold ruralBlock
  split_ifs <;> simp

/-- C2: for every progress value and every two prior states of the closure variables and
the page, the variables after the sample are the same, namely those the sample leads to:
they are a function of the sample alone. -/
theorem onUpdate_ctrl_function_of_progress (p : ℚ) (s1 s2 : Stage3) :
    (onUpdate s1 p).1.ctrl = (onUpdate s2 p).1.ctrl ∧ (onUpdate s1 p).1.ctrl = targetCtrl p := by
  rw [onUpdate_ctrl, onUpdate_ctrl]
  exact ⟨rfl, rfl⟩

/-- C3: when the closure variables already equal the tuple the sample maps to, the sample
starts no year-label swap, calls neither `setActiveState` nor `setActiveEra`, and leaves the
variables, the label, the pending swaps and every marker unchanged. -/
theorem onUpdate_idempotent (p : ℚ) (s : Stage3) (h : s.ctrl = targetCtrl p) :
    (onUpdate s p).2 = [] ∧ (onUpdate s p).1.ctrl = s.ctrl ∧
    (onUpdate s p).1.dom.pendingSwaps = s.dom.pendingSwaps ∧
    (onUpdate s p).1.dom.yearAnchor = s.dom.yearAnchor ∧
    (onUpdate s p).1.dom.urbanStates = s.dom.urbanStates ∧
    (onUpdate s p).1.dom.ruralStates = s.dom.ruralStates ∧
    (onUpdate s p).1.dom.urbanEraImgs.map EraImage.eraActive =
      s.dom.urbanEraImgs.map EraImage.eraActive ∧
    (onUpdate s p).1.dom.ruralEraImgs.map EraImage.eraActive =
      s.dom.ruralEraImgs.map EraImage.eraActive :=
  onUpdate_of_ctrl_eq p s h

/-- The sample of C3: half way, with the variables at the third milestone. -/
theorem onUpdate_idempotent_witness :
    (Stage3.mk (Ctrl.mk 2 2 1) Dom.initial).ctrl = targetCtrl (1 / 2) ∧
    (onUpdate (Stage3.mk (Ctrl.mk 2 2 1) Dom.initial) (1 / 2)).2 = [] :=
  ⟨by rw [targetCtrl_eq]; norm_num,
   (onUpdate_idempotent (1 / 2) (Stage3.mk (Ctrl.mk 2 2 1) Dom.initial)
      (by rw [targetCtrl_eq]; norm_num)).1⟩

/-- The same sample delivered twice in a row: the second delivery makes no call and leaves
the variables and the pending swaps as the first left them. -/
theorem onUpdate_redelivered (p : ℚ) (s : Stage3) :
    (onUpdate (onUpdate s p).1 p).2 = [] ∧
    (onUpdate (onUpdate s p).1 p).1.ctrl = (onUpdate s p).1.ctrl ∧
    (onUpdate (onUpdate s p).1 p).1.dom.pendingSwaps = (onUpdate s p).1.dom.pendingSwaps := by
  have h := onUpdate_of_ctrl_eq p (onUpdate s p).1 (onUpdate_ctrl s p)
  exact ⟨h.1, h.2.1, h.2.2.1⟩

/-- In exact arithmetic: for every sample below `0.10` and every prior state, after the
sample the milestone index is `-1` and both stage variables are `0`. -/
theorem onUpdate_exact_before_first_milestone (p : ℚ) (s : Stage3) (h : p < 0.10) :
    (onUpdate s p).1.ctrl = Ctrl.mk (-1) 0 0 := by
  rw [onUpdate_ctrl, targetCtrl_eq]
  norm_num at h
  have h1 : ¬ p ≥ 0.95 := by norm_num; linarith
  have h2 : ¬ p ≥ 0.77 := by norm_num; linarith
  have h3 : ¬ p ≥ 0.60 := by norm_num; linarith
  have h4 : ¬ p ≥ 0.43 := by norm_num; linarith
  have h5 : ¬ p ≥ 0.27 := by norm_num; linarith
  have h6 : ¬ p ≥ 0.10 := by norm_num; linarith
  simp only [h1, h2, h3, h4, h5, h6, if_false]

/-- C5: for every sample `p ≥ 1` and every prior state, after the sample the milestone
index is `5`, the index of the last milestone, whose year is `2026`, and the stage variables
are that milestone's values, `4` and `4`. -/
theorem onUpdate_at_end (p : ℚ) (s : Stage3) (h : p ≥ 1.0) :
    (onUpdate s p).1.ctrl = Ctrl.mk 5 4 4 ∧
    ((onUpdate s p).1.ctrl.currentYearIndex : Int) = (yearMilestones.length : Int) - 1 ∧
    milestoneAt (onUpdate s p).1.ctrl.currentYearIndex = some (Milestone.mk "2026" 1.00 4 4) := by
  have hc : (onUpdate s p).1.ctrl = Ctrl.mk 5 4 4 := by
    rw [onUpdate_ctrl, targetCtrl_eq]
    norm_num at h
    have h1 : p ≥ 0.95 := by norm_num; linarith
    simp only [h1, if_true]
  rw [hc]
  exact ⟨rfl, rfl, rfl⟩

/-- The sample of C5: the end of the scroll, from the initial state. -/
theorem onUpdate_at_end_witness :
    (1 : ℚ) ≥ 1.0 ∧ (onUpdate Stage3.initial 1).1.ctrl = Ctrl.mk 5 4 4 :=
  ⟨by norm_num, (onUpdate_at_end 1 Stage3.initial (by norm_num)).1⟩

/-- The loop is monotone in the sample: a milestone that qualifies for `p` qualifies for
every `q ≥ p`. -/
theorem getNearestMilestone_mono (p q : ℚ) (h : p ≤ q) :
    getNearestMilestone p ≤ getNearestMilestone q := by
  unfold getNearestMilestone
  rcases nearestLoop_spec p yearMilestones 0 (-1) with ⟨hp, -⟩ | ⟨k, m, hk, hp, hm, -⟩
  · rcases nearestLoop_spec q yearMilestones 0 (-1) with ⟨hq, -⟩ | ⟨k2, m2, -, hq, -, -⟩
    · rw [hp, hq]
    · rw [hp, hq]
      omega
  · rcases nearestLoop_spec q yearMilestones 0 (-1) with ⟨-, hnone⟩ | ⟨k2, m2, -, hq, -, hmax⟩
    · exact absurd (by linarith : q ≥ m.progress - 0.05) (hnone m (List.getElem?_mem hk))
    · have hle : k ≤ k2 := hmax k m hk (by linarith)
      rw [hp, hq]
      omega

/-- The seven values the variables can take after a sample. -/
theorem targetCtrl_cases (p : ℚ) :
    targetCtrl p = Ctrl.mk (-1) 0 0 ∨ targetCtrl p = Ctrl.mk 0 1 0 ∨
    targetCtrl p = Ctrl.mk 1 1 1 ∨ targetCtrl p = Ctrl.mk 2 2 1 ∨
    targetCtrl p = Ctrl.mk 3 3 2 ∨ targetCtrl p = Ctrl.mk 4 4 3 ∨
    targetCtrl p = Ctrl.mk 5 4 4 := by
  rw [targetCtrl_eq]
  split_ifs <;> simp

/-- The index among the variables a sample leads to is the result of the loop. -/
theorem targetCtrl_index (p : ℚ) :
    (targetCtrl p).currentYearIndex = getNearestMilestone p := by
  unfold targetCtrl
  cases milestoneAt (getNearestMilestone p) <;> rfl

/-- Monotonicity of the variables a sample leads to. -/
theorem targetCtrl_mono (p q : ℚ) (h : p ≤ q) :
    (targetCtrl p).currentYearIndex ≤ (targetCtrl q).currentYearIndex ∧
    (targetCtrl p).currentUrbanState ≤ (targetCtrl q).currentUrbanState ∧
    (targetCtrl p).currentRuralState ≤ (targetCtrl q).currentRuralState := by
  have hidx : (targetCtrl p).currentYearIndex ≤ (targetCtrl q).currentYearIndex := by
    rw [targetCtrl_index, targetCtrl_index]
    exact getNearestMilestone_mono p q h
  revert hidx
  rcases targetCtrl_cases p with hp | hp | hp | hp | hp | hp | hp <;>
    rcases targetCtrl_cases q with hq | hq | hq | hq | hq | hq | hq <;>
    rw [hp, hq] <;> decide

/-- C6: for samples `p ≤ q`, whatever the prior states, the state after `q` does not regress
relative to the state after `p`: the milestone index (none being `-1`), the urban stage and
the rural stage after `p` are at most those after `q`. -/
theorem onUpdate_monotone (p q : ℚ) (s1 s2 : Stage3) (h : p ≤ q) :
    (onUpdate s1 p).1.ctrl.currentYearIndex ≤ (onUpdate s2 q).1.ctrl.currentYearIndex ∧
    (onUpdate s1 p).1.ctrl.currentUrbanState ≤ (onUpdate s2 q).1.ctrl.currentUrbanState ∧
    (onUpdate s1 p).1.ctrl.currentRuralState ≤ (onUpdate s2 q).1.ctrl.currentRuralState := by
  rw [onUpdate_ctrl, onUpdate_ctrl]
  exact targetCtrl_mono p q h

/-- The samples of C6: three tenths and seven tenths. -/
theorem onUpdate_monotone_witness :
    (3 / 10 : ℚ) ≤ 7 / 10 ∧
    (onUpdate Stage3.initial (3 / 10)).1.ctrl.currentYearIndex ≤
      (onUpdate (Stage3.mk (Ctrl.mk 5 4 4) Dom.initial) (7 / 10)).1.ctrl.currentYearIndex :=
  ⟨by norm_num,
   (onUpdate_monotone (3 / 10) (7 / 10) Stage3.initial (Stage3.mk (Ctrl.mk 5 4 4) Dom.initial)
      (by norm_num)).1⟩

/-- C7: for every sample, in exact arithmetic, and every prior state (so whether or not the
milestone changes), the callback leaves the progress fill, where the page has one, with the
width `100 * p` percent and the divider, where the page has one, with the left offset
`50 + 3 * p` percent. -/
theorem onUpdate_fill_and_divider (p : ℚ) (s : Stage3) :
    (onUpdate s p).1.dom.progressFill = s.dom.progressFill.map (fun _ => some (100 * p)) ∧
    (onUpdate s p).1.dom.divider = s.dom.divider.map (fun _ => some (50 + 3 * p)) := by
  rw [onUpdate_eq_sampleBlocks]
  simp only [sampleBlocks, continuousBlock, (ruralBlock_frame _ _).1, (ruralBlock_frame _ _).2,
    (urbanBlock_frame _ _).1, (urbanBlock_frame _ _).2, (yearBlock_frame _ _ _).1,
    (yearBlock_frame _ _ _).2, toggleScrollIndicator, mul_comm p 100, mul_comm p 3]
  exact ⟨trivial, trivial⟩

/-! ## Calculator -/

/-- A successful lookup returns a value stored in the table. -/
theorem lookup_mem_values (table : List (String × Int)) (key : String) (n : Int)
    (h : table.lookup key = some n) : ∃ e ∈ table, e.2 = n := by
  induction table with
  | nil => simp [List.lookup] at h
  | cons e rest ih =>
    obtain ⟨k, v⟩ := e
    rw [List.lookup_cons] at h
    cases hk : (key == k) with
    | true =>
      rw [hk] at h
      exact ⟨(k, v), List.mem_cons_self _ _, by simpa using h⟩
    | false =>
      rw [hk] at h
      obtain ⟨e2, he2, hv⟩ := ih h
      exact ⟨e2, List.mem_cons_of_mem _ he2, hv⟩

/-- A key that `Object.prototype` does not answer inherits nothing. -/
theorem inheritedText_none (key : String) (h : key ∉ objectPrototypeKeys) :
    inheritedText key = none := by
  unfold objectPrototypeKeys at h
  simp only [List.mem_cons, not_or] at h
  unfold inheritedText
  rw [if_neg h.1, if_neg h.2.1, if_neg h.2.2]

/-- The operand `table[key] || 0` is either a number between the bounds of the table
values, or a string. -/
theorem orZero_getProperty (table : List (String × Int)) (bound : Int) (key : String)
    (hb : ∀ e ∈ table, 0 ≤ e.2 ∧ e.2 ≤ bound) (h0 : 0 ≤ bound) :
    (∃ n, orZero (getProperty table key) = JsVal.num n ∧ 0 ≤ n ∧ n ≤ bound) ∨
    (∃ t, orZero (getProperty table key) = JsVal.str t ∧ inheritedText key = some t) := by
  unfold getProperty
  cases hl : table.lookup key with
  | some n =>
    obtain ⟨e, he, hv⟩ := lookup_mem_values table key n hl
    left
    exact ⟨n, rfl, hv ▸ (hb e he).1, hv ▸ (hb e he).2⟩
  | none =>
    cases hi : inheritedText key with
    | some t => right; exact ⟨t, rfl, rfl⟩
    | none => left; exact ⟨0, rfl, le_refl _, h0⟩

/-- The points for the teacher ratio lie between 1 and 15, NaN included. -/
theorem teacherPoints_range (t : Option Int) : 1 ≤ teacherPoints t ∧ teacherPoints t ≤ 15 := by
  unfold teacherPoints
  split_ifs <;> omega

/-- Bounds of the location table. -/
theorem locationScores_range : ∀ e ∈ locationScores, 0 ≤ e.2 ∧ e.2 ≤ 25 := by
  simp [locationScores]

/-- Bounds of the device table. -/
theorem deviceScores_range : ∀ e ∈ deviceScores, 0 ≤ e.2 ∧ e.2 ≤ 25 := by
  simp [deviceScores]

/-- Bounds of the internet table. -/
theorem internetScores_range : ∀ e ∈ internetScores, 0 ≤ e.2 ∧ e.2 ≤ 25 := by
  simp [internetScores]

/-- Bounds of the distance table. -/
theorem distanceScores_range : ∀ e ∈ distanceScores, 0 ≤ e.2 ∧ e.2 ≤ 10 := by
  simp [distanceScores]

/-- A numeric score is between 1 and 100. -/
theorem computeScore_num_range (loc dev net : String) (t : Option Int) (dist : String) (n : Int)
    (h : computeScore loc dev net t dist = JsVal.num n) : 1 ≤ n ∧ n ≤ 100 := by
  have ht := teacherPoints_range t
  unfold computeScore at h
  rcases orZero_getProperty locationScores 25 loc locationScores_range (by norm_num) with
    ⟨a, ha, ha0, ha1⟩ | ⟨a, ha, -⟩ <;>
  rcases orZero_getProperty deviceScores 25 dev deviceScores_range (by norm_num) with
    ⟨b, hb, hb0, hb1⟩ | ⟨b, hb, -⟩ <;>
  rcases orZero_getProperty internetScores 25 net internetScores_range (by norm_num) with
    ⟨c, hc, hc0, hc1⟩ | ⟨c, hc, -⟩ <;>
  rcases orZero_getProperty distanceScores 10 dist distanceScores_range (by norm_num) with
    ⟨d, hd, hd0, hd1⟩ | ⟨d, hd, -⟩ <;>
  simp only [ha, hb, hc, hd, jsAdd, JsVal.num.injEq, reduceCtorEq] at h
  omega

/-- Without inherited keys the score is a number. -/
theorem computeScore_num (loc dev net : String) (t : Option Int) (dist : String)
    (h1 : loc ∉ objectPrototypeKeys) (h2 : dev ∉ objectPrototypeKeys)
    (h3 : net ∉ objectPrototypeKeys) (h4 : dist ∉ objectPrototypeKeys) :
    ∃ n, computeScore loc dev net t dist = JsVal.num n := by
  unfold computeScore
  rcases orZero_getProperty locationScores 25 loc locationScores_range (by norm_num) with
    ⟨a, ha, -, -⟩ | ⟨a, -, ha⟩
  swap
  · rw [inheritedText_none loc h1] at ha; cases ha
  rcases orZero_getProperty deviceScores 25 dev deviceScores_range (by norm_num) with
    ⟨b, hb, -, -⟩ | ⟨b, -, hb⟩
  swap
  · rw [inheritedText_none dev h2] at hb; cases hb
  rcases orZero_getProperty internetScores 25 net internetScores_range (by norm_num) with
    ⟨c, hc, -, -⟩ | ⟨c, -, hc⟩
  swap
  · rw [inheritedText_none net h3] at hc; cases hc
  rcases orZero_getProperty distanceScores 10 dist distanceScores_range (by norm_num) with
    ⟨d, hd, -, -⟩ | ⟨d, -, hd⟩
  swap
  · rw [inheritedText_none dist h4] at hd; cases hd
  exact ⟨0 + a + b + c + teacherPoints t + d, by simp only [ha, hb, hc, hd, jsAdd]⟩

/-- What the handler does once the validation has let the submission through. -/
theorem submit_of_filled (f : CalcForm) (r : CalcResult)
    (h : ¬ (f.locationType = "" ∨ f.deviceAccess = "" ∨ f.internetAccess = "" ∨
      f.schoolDistance = "")) :
    (submit f r).alert = none ∧
    (submit f r).score = some (computeScore f.locationType f.deviceAccess f.internetAccess
      (parseInt10 f.teacherRatio) f.schoolDistance) := by
  unfold submit
  simp only [if_neg h, and_self]

/-- What the handler does when the validation stops the submission. -/
theorem submit_of_empty (f : CalcForm) (r : CalcResult)
    (h : f.locationType = "" ∨ f.deviceAccess = "" ∨ f.internetAccess = "" ∨
      f.schoolDistance = "") :
    submit f r = SubmitOutcome.mk (some validationNotice) none r false := by
  unfold submit
  simp only [if_pos h, validationNotice]

/-- The validation lets through exactly the submissions with the four category fields
filled. -/
theorem passesValidation_iff (f : CalcForm) :
    PassesValidation f ↔ ¬ (f.locationType = "" ∨ f.deviceAccess = "" ∨ f.internetAccess = "" ∨
      f.schoolDistance = "") := by
  unfold PassesValidation
  constructor
  · intro h hemp
    rw [submit_of_empty f _ hemp] at h
    cases h
  · intro h
    exact (submit_of_filled f _ h).1



/-- A range value is not the empty string, which `parseInt` reads as NaN. -/
theorem rangeValue_ne_empty (v : String) (h : IsRangeValue v) : v ≠ "" := by
  rintro rfl
  obtain ⟨t, ht⟩ := h
  have hnone : parseInt10 "" = none := by decide
  rw [hnone] at ht
  cases ht

/-- C8: for every submission of the form, whose teacher-ratio control is a range and so
always holds a number, in which at least one of the five fields (location, device access,
internet access, teacher ratio, school distance) is empty, the handler shows the validation
notice, computes no score, leaves the result block unchanged and does not scroll to it; and
the notice is shown for no other submission. -/
theorem submit_rejects_missing_field (f : CalcForm) (r : CalcResult)
    (hrange : IsRangeValue f.teacherRatio)
    (h : f.locationType = "" ∨ f.deviceAccess = "" ∨ f.internetAccess = "" ∨
      f.teacherRatio = "" ∨ f.schoolDistance = "") :
    ((submit f r).alert = some validationNotice ∧ (submit f r).score = none ∧
      (submit f r).result = r ∧ (submit f r).scrolled = false) ∧
    ∀ (g : CalcForm) (r2 : CalcResult), IsRangeValue g.teacherRatio →
      ((submit g r2).alert = some validationNotice ↔
        (g.locationType = "" ∨ g.deviceAccess = "" ∨ g.internetAccess = "" ∨
          g.teacherRatio = "" ∨ g.schoolDistance = "")) := by
  have hfour : ∀ g : CalcForm, IsRangeValue g.teacherRatio →
      ((g.locationType = "" ∨ g.deviceAccess = "" ∨ g.internetAccess = "" ∨
          g.teacherRatio = "" ∨ g.schoolDistance = "") ↔
        (g.locationType = "" ∨ g.deviceAccess = "" ∨ g.internetAccess = "" ∨
          g.schoolDistance = "")) := by
    intro g hg
    have hne := rangeValue_ne_empty g.teacherRatio hg
    constructor
    · rintro (h1 | h1 | h1 | h1 | h1)
      · exact Or.inl h1
      · exact Or.inr (Or.inl h1)
      · exact Or.inr (Or.inr (Or.inl h1))
      · exact absurd h1 hne
      · exact Or.inr (Or.inr (Or.inr h1))
    · rintro (h1 | h1 | h1 | h1)
      · exact Or.inl h1
      · exact Or.inr (Or.inl h1)
      · exact Or.inr (Or.inr (Or.inl h1))
      · exact Or.inr (Or.inr (Or.inr (Or.inr h1)))
  refine ⟨?_, ?_⟩
  · rw [submit_of_empty f r ((hfour f hrange).mp h)]
    exact ⟨rfl, rfl, rfl, rfl⟩
  · intro g r2 hg
    rw [hfour g hg]
    constructor
    · intro ha
      by_contra hfill
      rw [(submit_of_filled g r2 hfill).1] at ha
      cases ha
    · intro hemp
      rw [submit_of_empty g r2 hemp]

/-- A submission for C8: the ratio 18 on the range, everything filled but the distance,
over a visible result. -/
theorem submit_rejects_missing_field_witness :
    IsRangeValue (CalcForm.mk "metro" "multi" "broadband" "18" "").teacherRatio ∧
    (CalcForm.mk "metro" "multi" "broadband" "18" "").schoolDistance = "" ∧
    (submit (CalcForm.mk "metro" "multi" "broadband" "18" "")
      (CalcResult.mk "47/100" "calc-result__score score-mid" "x" "y" true)).result
      = CalcResult.mk "47/100" "calc-result__score score-mid" "x" "y" true :=
  ⟨⟨18, by decide⟩, rfl,
   (submit_rejects_missing_field (CalcForm.mk "metro" "multi" "broadband" "18" "")
      (CalcResult.mk "47/100" "calc-result__score score-mid" "x" "y" true)
      ⟨18, by decide⟩ (Or.inr (Or.inr (Or.inr (Or.inr rfl))))).1.2.2.1⟩

/-- C9, the code at the failing input: the category string `constructor` is not empty and
passes the validation; the location table, read without an own-property check, answers it
with the inherited function `Object`, which `|| 0` keeps; the location contributes that
function instead of the 0 to 25 points of the comment of line 202, and `+=` turns the score
into a string: it is no integer between 0 and 100. -/
theorem submit_constructor_score_not_integer :
    PassesValidation (CalcForm.mk "constructor" "multi" "broadband" "18" "nearby") ∧
    orZero (getProperty locationScores "constructor")
      = JsVal.str "function Object() \x7b [native code] \x7d" ∧
    (submit (CalcForm.mk "constructor" "multi" "broadband" "18" "nearby") CalcResult.hidden).score
      = some (JsVal.str "0function Object() \x7b [native code] \x7d25251510") ∧
    ¬ ∃ n : Int, 0 ≤ n ∧ n ≤ 100 ∧
      (submit (CalcForm.mk "constructor" "multi" "broadband" "18" "nearby")
        CalcResult.hidden).score = some (JsVal.num n) := by
  have hs : (submit (CalcForm.mk "constructor" "multi" "broadband" "18" "nearby")
      CalcResult.hidden).score
      = some (JsVal.str "0function Object() \x7b [native code] \x7d25251510") := by decide
  refine ⟨by unfold PassesValidation; decide, by decide, hs, ?_⟩
  rintro ⟨n, -, -, hn⟩
  rw [hs] at hn
  cases hn

/-- Where the lookups do what the comments say: for every submission that passes the
validation and in which no category string is a key an object literal inherits from
`Object.prototype`, whatever else the category strings are and whatever the teacher-ratio
field parses to, the computed score is an integer between 0 and 100. -/
theorem submit_score_range_own_keys (f : CalcForm) (r : CalcResult)
    (hv : PassesValidation f)
    (h1 : f.locationType ∉ objectPrototypeKeys) (h2 : f.deviceAccess ∉ objectPrototypeKeys)
    (h3 : f.internetAccess ∉ objectPrototypeKeys)
    (h4 : f.schoolDistance ∉ objectPrototypeKeys) :
    (∃ n : Int, (submit f r).score = some (JsVal.num n) ∧ 0 ≤ n ∧ n ≤ 100) ∧
    ∀ t : Option Int, ∃ n : Int,
      computeScore f.locationType f.deviceAccess f.internetAccess t f.schoolDistance
        = JsVal.num n ∧ 0 ≤ n ∧ n ≤ 100 := by
  have key : ∀ t : Option Int, ∃ n : Int,
      computeScore f.locationType f.deviceAccess f.internetAccess t f.schoolDistance
        = JsVal.num n ∧ 0 ≤ n ∧ n ≤ 100 := by
    intro t
    obtain ⟨n, hn⟩ := computeScore_num f.locationType f.deviceAccess f.internetAccess t
      f.schoolDistance h1 h2 h3 h4
    have hr := computeScore_num_range _ _ _ _ _ n hn
    exact ⟨n, hn, by omega, hr.2⟩
  refine ⟨?_, key⟩
  obtain ⟨n, hn, h0, h100⟩ := key (parseInt10 f.teacherRatio)
  refine ⟨n, ?_, h0, h100⟩
  rw [(submit_of_filled f r ((passesValidation_iff f).mp hv)).2, hn]

/-- The score of the best answers. -/
theorem computeScore_best (t : Int) (ht : t ≤ 20) :
    computeScore "metro" "multi" "broadband" (some t) "nearby" = JsVal.num 100 := by
  have h1 : orZero (getProperty locationScores "metro") = JsVal.num 25 := by decide
  have h2 : orZero (getProperty deviceScores "multi") = JsVal.num 25 := by decide
  have h3 : orZero (getProperty internetScores "broadband") = JsVal.num 25 := by decide
  have h4 : orZero (getProperty distanceScores "nearby") = JsVal.num 10 := by decide
  have h5 : teacherPoints (some t) = 15 := by
    unfold teacherPoints jsLe
    simp [ht]
  unfold computeScore
  simp only [h1, h2, h3, h4, h5, jsAdd]
  rfl

/-- C10: for every submission with location `metro`, device `multi`, internet `broadband`,
distance `nearby` and a teacher-ratio field that parses to an integer at most 20, the score
is `25 + 25 + 25 + 15 + 10 = 100`, the class is `score-high` and the label that of the high
band; and no submission whatever computes a score above 100: a numeric score is at most
100, and a score compares `>= k` only for `k ≤ 100`. -/
theorem submit_best_is_100 (raw : String) (t : Int) (r : CalcResult)
    (hp : parseInt10 raw = some t) (ht : t ≤ 20) :
    (submit (CalcForm.mk "metro" "multi" "broadband" raw "nearby") r).score
      = some (JsVal.num (25 + 25 + 25 + 15 + 10)) ∧
    (submit (CalcForm.mk "metro" "multi" "broadband" raw "nearby") r).score
      = some (JsVal.num 100) ∧
    (submit (CalcForm.mk "metro" "multi" "broadband" raw "nearby") r).result.scoreClass
      = "calc-result__score score-high" ∧
    (submit (CalcForm.mk "metro" "multi" "broadband" raw "nearby") r).result.labelText
      = "High Access — Well above average" ∧
    (verdict (JsVal.num 100)).colorClass = "score-high" ∧
    (∀ (f : CalcForm) (r2 : CalcResult) (n : Int),
      (submit f r2).score = some (JsVal.num n) → n ≤ 100) ∧
    ∀ (f : CalcForm) (r2 : CalcResult) (v : JsVal) (k : Int),
      (submit f r2).score = some v → jsGe (toNumber v) k = true → k ≤ 100 := by
  have hs : submit (CalcForm.mk "metro" "multi" "broadband" raw "nearby") r =
      SubmitOutcome.mk none (some (JsVal.num 100))
        (CalcResult.mk ((JsVal.num 100).text ++ "/100")
          ("calc-result__score " ++ (verdict (JsVal.num 100)).colorClass)
          (verdict (JsVal.num 100)).labelText (verdict (JsVal.num 100)).comparison true)
        true := by
    have hfill : ¬ (("metro" : String) = "" ∨ ("multi" : String) = "" ∨
        ("broadband" : String) = "" ∨ ("nearby" : String) = "") := by decide
    unfold submit
    simp only [if_neg hfill, hp, computeScore_best t ht]
  rw [hs]
  have hmax : ∀ (f : CalcForm) (r2 : CalcResult) (n : Int),
      (submit f r2).score = some (JsVal.num n) → n ≤ 100 := by
    intro f r2 n hn
    by_cases hemp : f.locationType = "" ∨ f.deviceAccess = "" ∨ f.internetAccess = "" ∨
        f.schoolDistance = ""
    · rw [submit_of_empty f r2 hemp] at hn
      cases hn
    · rw [(submit_of_filled f r2 hemp).2] at hn
      exact (computeScore_num_range _ _ _ _ _ n (Option.some.inj hn)).2
  refine ⟨rfl, rfl, by decide, by decide, by decide, hmax, ?_⟩
  intro f r2 v k hv hk
  cases v with
  | num n =>
    have hn := hmax f r2 n hv
    simp only [toNumber, jsGe, decide_eq_true_eq] at hk
    omega
  | str t => simp [toNumber, jsGe] at hk

/-- The submission of C10 with the teacher ratio 18. -/
theorem submit_best_is_100_witness :
    parseInt10 "18" = some 18 ∧ (18 : Int) ≤ 20 ∧
    (submit (CalcForm.mk "metro" "multi" "broadband" "18" "nearby") CalcResult.hidden).score
      = some (JsVal.num 100) :=
  ⟨by decide, by decide,
   (submit_best_is_100 "18" 18 CalcResult.hidden (by decide) (by decide)).2.1⟩


/-! ## Stage 3: markers and the year label over sequences of events -/

/-- Element `i` of the list `setActiveState` leaves. -/
theorem setActiveState_getElem? (states : List Bool) (k : Int) (i : Nat) :
    (setActiveState states k)[i]? =
      if i < states.length then some (decide ((i : Int) = k)) else none := by
  unfold setActiveState
  rw [List.getElem?_map, List.getElem?_enum]
  by_cases h : i < states.length
  · rw [if_pos h, List.getElem?_eq_getElem h]
    rfl
  · rw [if_neg h, List.getElem?_eq_none (by omega)]
    rfl

/-- The list `setActiveState` leaves has the length of the list it was given. -/
theorem setActiveState_length (states : List Bool) (k : Int) :
    (setActiveState states k).length = states.length := by
  simp [setActiveState]

/-- After `setActiveState` with an index of the list, exactly that element is active. -/
theorem setActiveState_onlyActive (states : List Bool) (k : Int) (h0 : 0 ≤ k)
    (h1 : k < states.length) : OnlyActive (setActiveState states k) k := by
  refine ⟨h0, by rw [setActiveState_length]; exact h1, ?_⟩
  intro i
  rw [setActiveState_getElem?]
  by_cases h : i < states.length
  · simp [h]
  · simp only [h, if_false]
    constructor
    · intro hc; cases hc
    · intro hc; omega

/-- The year block leaves the markers, the label aside, alone. -/
theorem yearBlock_states (s : Stage3) (idx : Int) (t : String) :
    (yearBlock s idx t).1.dom.urbanStates = s.dom.urbanStates ∧
    (yearBlock s idx t).1.dom.ruralStates = s.dom.ruralStates := by
  unfold yearBlock
  split_ifs with h1
  · cases hy : s.dom.yearAnchor with
    | none => simp
    | some a => simp only []; split_ifs <;> simp
  · simp

/-- The markers after the urban block. -/
theorem urbanBlock_states (s : Stage3) (t : Int) :
    (urbanBlock s t).1.dom.urbanStates =
      (if t ≠ s.ctrl.currentUrbanState then setActiveState s.dom.urbanStates t
       else s.dom.urbanStates) ∧
    (urbanBlock s t).1.dom.ruralStates = s.dom.ruralStates := by
  unfold urbanBlock
  split_ifs <;> simp

/-- The markers after the rural block. -/
theorem ruralBlock_states (s : Stage3) (t : Int) :
    (ruralBlock s t).1.dom.ruralStates =
      (if t ≠ s.ctrl.currentRuralState then setActiveState s.dom.ruralStates t
       else s.dom.ruralStates) ∧
    (ruralBlock s t).1.dom.urbanStates = s.dom.urbanStates := by
  unfold ruralBlock
  split_ifs <;> simp

/-- The urban markers after a sample. -/
theorem onUpdate_urbanStates (s : Stage3) (p : ℚ) :
    (onUpdate s p).1.dom.urbanStates =
      if (targetCtrl p).currentUrbanState ≠ s.ctrl.currentUrbanState then
        setActiveState s.dom.urbanStates (targetCtrl p).currentUrbanState
      else s.dom.urbanStates := by
  rw [onUpdate_eq_sampleBlocks]
  simp only [sampleBlocks, continuousBlock]
  rw [(ruralBlock_states _ _).2, (urbanBlock_states _ _).1, (yearBlock_states _ _ _).1,
    yearBlock_ctrl]
  rfl

/-- The rural markers after a sample. -/
theorem onUpdate_ruralStates (s : Stage3) (p : ℚ) :
    (onUpdate s p).1.dom.ruralStates =
      if (targetCtrl p).currentRuralState ≠ s.ctrl.currentRuralState then
        setActiveState s.dom.ruralStates (targetCtrl p).currentRuralState
      else s.dom.ruralStates := by
  rw [onUpdate_eq_sampleBlocks]
  simp only [sampleBlocks, continuousBlock]
  rw [(ruralBlock_states _ _).1, (urbanBlock_states _ _).2, (yearBlock_states _ _ _).2,
    urbanBlock_ctrl, yearBlock_ctrl]
  rfl

/-- The stage numbers a sample leads to are between 0 and 4. -/
theorem targetCtrl_stage_range (p : ℚ) :
    0 ≤ (targetCtrl p).currentUrbanState ∧ (targetCtrl p).currentUrbanState ≤ 4 ∧
    0 ≤ (targetCtrl p).currentRuralState ∧ (targetCtrl p).currentRuralState ≤ 4 := by
  rcases targetCtrl_cases p with h | h | h | h | h | h | h <;> rw [h] <;> decide

/-- One sample keeps each dimension with exactly the marker of its stage number active. -/
theorem onUpdate_markers (s : Stage3) (p : ℚ)
    (hu : OnlyActive s.dom.urbanStates s.ctrl.currentUrbanState)
    (hr : OnlyActive s.dom.ruralStates s.ctrl.currentRuralState)
    (lu : 5 ≤ s.dom.urbanStates.length) (lr : 5 ≤ s.dom.ruralStates.length) :
    OnlyActive (onUpdate s p).1.dom.urbanStates (onUpdate s p).1.ctrl.currentUrbanState ∧
    OnlyActive (onUpdate s p).1.dom.ruralStates (onUpdate s p).1.ctrl.currentRuralState ∧
    5 ≤ (onUpdate s p).1.dom.urbanStates.length ∧
    5 ≤ (onUpdate s p).1.dom.ruralStates.length := by
  obtain ⟨u0, u4, r0, r4⟩ := targetCtrl_stage_range p
  rw [onUpdate_urbanStates, onUpdate_ruralStates, onUpdate_ctrl]
  refine ⟨?_, ?_, ?_, ?_⟩
  · split_ifs with h
    · exact setActiveState_onlyActive _ _ u0 (by omega)
    · rw [not_not] at h
      rw [h]
      exact hu
  · split_ifs with h
    · exact setActiveState_onlyActive _ _ r0 (by omega)
    · rw [not_not] at h
      rw [h]
      exact hr
  · split_ifs
    · rw [setActiveState_length]; exact lu
    · exact lu
  · split_ifs
    · rw [setActiveState_length]; exact lr
    · exact lr

/-- The same over a sequence of samples. -/
theorem runSamples_markers (samples : List ℚ) :
    ∀ s : Stage3, OnlyActive s.dom.urbanStates s.ctrl.currentUrbanState →
      OnlyActive s.dom.ruralStates s.ctrl.currentRuralState →
      5 ≤ s.dom.urbanStates.length → 5 ≤ s.dom.ruralStates.length →
      OnlyActive (runSamples s samples).dom.urbanStates
        (runSamples s samples).ctrl.currentUrbanState ∧
      OnlyActive (runSamples s samples).dom.ruralStates
        (runSamples s samples).ctrl.currentRuralState := by
  induction samples with
  | nil => intro s hu hr _ _; exact ⟨hu, hr⟩
  | cons p rest ih =>
    intro s hu hr lu lr
    obtain ⟨h1, h2, h3, h4⟩ := onUpdate_markers s p hu hr lu lr
    exact ih (onUpdate s p).1 h1 h2 h3 h4

/-- C14: on a page where each dimension has at least five markers of which only the one at
index 0 is active, after every sequence of progress samples from the initial closure
variables each dimension has exactly one active marker, the one whose index is the current
stage number; and in general after `setActiveState(states, k)` element `i` of the list is
active if and only if `i = k`, whatever the classes were before. -/
theorem markers_follow_stage (d : Dom) (samples : List ℚ)
    (lu : 5 ≤ d.urbanStates.length) (lr : 5 ≤ d.ruralStates.length)
    (hu : ∀ i : Nat, d.urbanStates[i]? = some true ↔ i = 0)
    (hr : ∀ i : Nat, d.ruralStates[i]? = some true ↔ i = 0) :
    OnlyActive (runSamples (Stage3.mk Ctrl.init d) samples).dom.urbanStates
      (runSamples (Stage3.mk Ctrl.init d) samples).ctrl.currentUrbanState ∧
    OnlyActive (runSamples (Stage3.mk Ctrl.init d) samples).dom.ruralStates
      (runSamples (Stage3.mk Ctrl.init d) samples).ctrl.currentRuralState ∧
    (∀ (states : List Bool) (k : Int) (i : Nat), i < states.length →
      ((setActiveState states k)[i]? = some true ↔ (i : Int) = k)) ∧
    (∀ (states : List Bool) (k : Int), (setActiveState states k).length = states.length) := by
  have iu : OnlyActive d.urbanStates 0 :=
    ⟨le_refl _, by omega, fun i => by rw [hu i]; omega⟩
  have ir : OnlyActive d.ruralStates 0 :=
    ⟨le_refl _, by omega, fun i => by rw [hr i]; omega⟩
  obtain ⟨h1, h2⟩ := runSamples_markers samples (Stage3.mk Ctrl.init d) iu ir lu lr
  refine ⟨h1, h2, ?_, setActiveState_length⟩
  intro states k i hi
  rw [setActiveState_getElem?, if_pos hi]
  simp

/-- The page of C14: five markers per dimension, samples forward, backward and to the
end. -/
theorem markers_follow_stage_witness :
    5 ≤ Dom.initial.urbanStates.length ∧
    OnlyActive (runSamples (Stage3.mk Ctrl.init Dom.initial) [1 / 2, 1 / 5, 1]).dom.urbanStates
      (runSamples (Stage3.mk Ctrl.init Dom.initial) [1 / 2, 1 / 5, 1]).ctrl.currentUrbanState :=
  ⟨by decide,
   (markers_follow_stage Dom.initial [1 / 2, 1 / 5, 1] (by decide) (by decide)
      (by intro i; rcases i with _ | _ | _ | _ | _ | i <;> simp [Dom.initial])
      (by intro i; rcases i with _ | _ | _ | _ | _ | i <;> simp [Dom.initial])).1⟩

/-- The label and its pending swaps after the year block when a swap is started. -/
theorem yearBlock_swap (s : Stage3) (idx : Int) (t : String) (a : YearAnchor)
    (h1 : idx ≠ s.ctrl.currentYearIndex) (h2 : s.dom.yearAnchor = some a)
    (h3 : jsTrim a.innerText ≠ t) :
    (yearBlock s idx t).1.dom.yearAnchor = some (YearAnchor.mk a.innerText true) ∧
    (yearBlock s idx t).1.dom.pendingSwaps = s.dom.pendingSwaps ++ [t] := by
  unfold yearBlock
  rw [if_pos h1]
  simp only [h2]
  rw [if_pos h3]
  exact ⟨rfl, rfl⟩

/-- The label and its pending swaps after the year block when the text read from the label
is already the new year text. -/
theorem yearBlock_no_swap (s : Stage3) (idx : Int) (t : String) (a : YearAnchor)
    (h2 : s.dom.yearAnchor = some a) (h3 : jsTrim a.innerText = t) :
    (yearBlock s idx t).1.dom.yearAnchor = some a ∧
    (yearBlock s idx t).1.dom.pendingSwaps = s.dom.pendingSwaps := by
  unfold yearBlock
  split_ifs with h1
  · simp only [h2]
    rw [if_neg (by simpa using h3)]
    exact ⟨h2, rfl⟩
  · exact ⟨h2, rfl⟩

/-- The stage blocks leave the label and its pending swaps alone. -/
theorem stageBlocks_label (s : Stage3) (t : Int) :
    (urbanBlock s t).1.dom.yearAnchor = s.dom.yearAnchor ∧
    (urbanBlock s t).1.dom.pendingSwaps = s.dom.pendingSwaps ∧
    (ruralBlock s t).1.dom.yearAnchor = s.dom.yearAnchor ∧
    (ruralBlock s t).1.dom.pendingSwaps = s.dom.pendingSwaps := by
  unfold urbanBlock ruralBlock
  refine ⟨?_, ?_, ?_, ?_⟩ <;> split_ifs <;> rfl

/-- The label and its pending swaps after a sample are those the year block leaves. -/
theorem onUpdate_label (s : Stage3) (p : ℚ) :
    (onUpdate s p).1.dom.yearAnchor =
      (yearBlock (Stage3.mk s.ctrl (toggleScrollIndicator s.dom p)) (getNearestMilestone p)
        (yearOfIndex (getNearestMilestone p))).1.dom.yearAnchor ∧
    (onUpdate s p).1.dom.pendingSwaps =
      (yearBlock (Stage3.mk s.ctrl (toggleScrollIndicator s.dom p)) (getNearestMilestone p)
        (yearOfIndex (getNearestMilestone p))).1.dom.pendingSwaps := by
  rw [onUpdate_eq_sampleBlocks]
  simp only [sampleBlocks, continuousBlock]
  rw [(stageBlocks_label _ _).2.2.1, (stageBlocks_label _ _).2.2.2, (stageBlocks_label _ _).1,
    (stageBlocks_label _ _).2.1]
  exact ⟨rfl, rfl⟩

/-- C18, the code at the failing input: the label left behind by a quick reversal, in either
reading of a completion. From the initial state, the sample `0.11`, past the first
threshold, starts the swap to `2000`; the sample `0.09`, back below the threshold and
arriving before the swap completes, finds the text still `1990`, the year it wants, and
starts nothing; the swap then completes. No swap is in flight, the milestone index is `-1`,
whose year is `1990`, and the label shows `2000`. -/
theorem label_stuck_after_reversal (queued : Bool) :
    (runLabel queued Stage3.initial
      [LabelEvent.sample (11 / 100), LabelEvent.sample (9 / 100), LabelEvent.swapDone]).dom.pendingSwaps
      = [] ∧
    (runLabel queued Stage3.initial
      [LabelEvent.sample (11 / 100), LabelEvent.sample (9 / 100), LabelEvent.swapDone]).ctrl.currentYearIndex
      = -1 ∧
    yearOfIndex (-1) = "1990" ∧
    (runLabel queued Stage3.initial
      [LabelEvent.sample (11 / 100), LabelEvent.sample (9 / 100), LabelEvent.swapDone]).dom.yearAnchor
      = some (YearAnchor.mk "2000" true) := by
  have i1 : getNearestMilestone (11 / 100) = 0 := by rw [getNearestMilestone_eq]; norm_num
  have i2 : getNearestMilestone (9 / 100) = -1 := by rw [getNearestMilestone_eq]; norm_num
  have y1 : yearOfIndex 0 = "2000" := by decide
  have y2 : yearOfIndex (-1) = "1990" := by decide
  -- the first sample starts the swap
  have c1 : (onUpdate Stage3.initial (11 / 100)).1.ctrl.currentYearIndex = 0 := by
    rw [onUpdate_ctrl, targetCtrl_index, i1]
  have l1 := onUpdate_label Stage3.initial (11 / 100)
  rw [i1, y1] at l1
  have b1 := yearBlock_swap
    (Stage3.mk Stage3.initial.ctrl (toggleScrollIndicator Stage3.initial.dom (11 / 100))) 0 "2000"
    (YearAnchor.mk "1990" false) (by decide) rfl (by decide)
  rw [b1.1, b1.2] at l1
  -- the second sample starts nothing
  have c2 : (onUpdate (onUpdate Stage3.initial (11 / 100)).1 (9 / 100)).1.ctrl.currentYearIndex
      = -1 := by
    rw [onUpdate_ctrl, targetCtrl_index, i2]
  have l2 := onUpdate_label (onUpdate Stage3.initial (11 / 100)).1 (9 / 100)
  rw [i2, y2] at l2
  have b2 := yearBlock_no_swap
    (Stage3.mk (onUpdate Stage3.initial (11 / 100)).1.ctrl
      (toggleScrollIndicator (onUpdate Stage3.initial (11 / 100)).1.dom (9 / 100))) (-1) "1990"
    (YearAnchor.mk "1990" true) l1.1 (by decide)
  rw [b2.1, b2.2] at l2
  have q2 : (onUpdate (onUpdate Stage3.initial (11 / 100)).1 (9 / 100)).1.dom.pendingSwaps
      = ["2000"] := by
    rw [l2.2]
    exact l1.2
  -- the swap completes
  simp only [runLabel, List.foldl, stepLabel]
  refine ⟨?_, c2, y2, ?_⟩
  · cases queued <;>
      simp only [completeSwap, completeSwapQueued, l2.1, q2, if_true, if_false,
        Bool.false_eq_true]
  · cases queued <;>
      simp only [completeSwap, completeSwapQueued, l2.1, q2, if_true, if_false,
        Bool.false_eq_true]

/-! ## Stage 3 in double-precision arithmetic -/

/-- A rational within less than one half of an integer rounds to it. -/
theorem roundHalfEven_eq (x : ℚ) (m : ℤ) (h : |x - m| < 1 / 2) : roundHalfEven x = m := by
  rw [abs_lt] at h
  obtain ⟨h1, h2⟩ := h
  unfold roundHalfEven
  by_cases hx : (m : ℚ) ≤ x
  · have hf : ⌊x⌋ = m := Int.floor_eq_iff.mpr ⟨hx, by linarith⟩
    rw [hf, if_pos (by linarith)]
  · have hf : ⌊x⌋ = m - 1 :=
      Int.floor_eq_iff.mpr ⟨by push_cast; linarith, by push_cast; linarith⟩
    rw [hf, if_neg (by push_cast; linarith), if_pos (by push_cast; linarith)]
    ring

/-- A number of the binade `[2 ^ (e + 52), 2 ^ (e + 53))` that lies within less than half
a unit `2 ^ e` of `m * 2 ^ e` rounds to `m * 2 ^ e`. -/
theorem roundDouble_eq (q : ℚ) (m e : ℤ) (he : -1074 ≤ e) (hlo : (2 : ℚ) ^ (e + 52) ≤ q)
    (hhi : q < (2 : ℚ) ^ (e + 53)) (hclose : |q - m * 2 ^ e| < 2 ^ e / 2) :
    roundDouble q = m * 2 ^ e := by
  have hpos : (0 : ℚ) < q := lt_of_lt_of_le (zpow_pos (by norm_num) _) hlo
  have hlog : Int.log 2 |q| = e + 52 := by
    rw [abs_of_pos hpos]
    apply le_antisymm
    · have := (Int.lt_zpow_iff_log_lt (b := 2) (by norm_num) (x := e + 53) hpos).mp
        (by exact_mod_cast hhi)
      omega
    · exact (Int.zpow_le_iff_le_log (b := 2) (by norm_num) hpos).mp (by exact_mod_cast hlo)
  have hexp : max (Int.log 2 |q| - 52) (-1074) = e := by
    rw [hlog]
    have : e + 52 - 52 = e := by ring
    rw [this]
    exact max_eq_left he
  have h2 : (0 : ℚ) < 2 ^ e := zpow_pos (by norm_num) _
  unfold roundDouble
  rw [if_neg (ne_of_gt hpos), hexp]
  have hx : |q / 2 ^ e - m| < 1 / 2 := by
    have : q / 2 ^ e - m = (q - m * 2 ^ e) / 2 ^ e := by
      field_simp
      ring
    rw [this, abs_div, abs_of_pos h2, div_lt_iff₀ h2]
    linarith
  rw [roundHalfEven_eq _ m hx]

/-- The double of the literal `0.15`. -/
theorem roundDouble_015 : roundDouble 0.15 = 5404319552844595 / 2 ^ 55 := by
  rw [roundDouble_eq 0.15 5404319552844595 (-55) (by norm_num) (by norm_num) (by norm_num)
    (by rw [abs_lt]; constructor <;> norm_num)]
  norm_num

/-- The double of the literal `0.32`. -/
theorem roundDouble_032 : roundDouble 0.32 = 5764607523034235 / 2 ^ 54 := by
  rw [roundDouble_eq 0.32 5764607523034235 (-54) (by norm_num) (by norm_num) (by norm_num)
    (by rw [abs_lt]; constructor <;> norm_num)]
  norm_num

/-- The double of the literal `0.48`. -/
theorem roundDouble_048 : roundDouble 0.48 = 8646911284551352 / 2 ^ 54 := by
  rw [roundDouble_eq 0.48 8646911284551352 (-54) (by norm_num) (by norm_num) (by norm_num)
    (by rw [abs_lt]; constructor <;> norm_num)]
  norm_num

/-- The double of the literal `0.65`. -/
theorem roundDouble_065 : roundDouble 0.65 = 5854679515581645 / 2 ^ 53 := by
  rw [roundDouble_eq 0.65 5854679515581645 (-53) (by norm_num) (by norm_num) (by norm_num)
    (by rw [abs_lt]; constructor <;> norm_num)]
  norm_num

/-- The double of the literal `0.82`. -/
theorem roundDouble_082 : roundDouble 0.82 = 7385903388887613 / 2 ^ 53 := by
  rw [roundDouble_eq 0.82 7385903388887613 (-53) (by norm_num) (by norm_num) (by norm_num)
    (by rw [abs_lt]; constructor <;> norm_num)]
  norm_num

/-- The double of the literal `1.00`. -/
theorem roundDouble_100 : roundDouble 1.00 = 4503599627370496 / 2 ^ 52 := by
  rw [roundDouble_eq 1.00 4503599627370496 (-52) (by norm_num) (by norm_num) (by norm_num)
    (by rw [abs_lt]; constructor <;> norm_num)]
  norm_num

/-- The double of the literal `0.05`. -/
theorem roundDouble_005 : roundDouble 0.05 = 7205759403792794 / 2 ^ 57 := by
  rw [roundDouble_eq 0.05 7205759403792794 (-57) (by norm_num) (by norm_num) (by norm_num)
    (by rw [abs_lt]; constructor <;> norm_num)]
  norm_num

/-- The double of the literal `0.10`. -/
theorem roundDouble_010 : roundDouble 0.10 = 7205759403792794 / 2 ^ 56 := by
  rw [roundDouble_eq 0.10 7205759403792794 (-56) (by norm_num) (by norm_num) (by norm_num)
    (by rw [abs_lt]; constructor <;> norm_num)]
  norm_num

/-- The difference `0.15 - 0.05` in double arithmetic. -/
theorem threshold_015 :
    roundDouble (roundDouble 0.15 - roundDouble 0.05) = 7205759403792793 / 2 ^ 56 := by
  rw [roundDouble_015, roundDouble_005,
    roundDouble_eq _ 7205759403792793 (-56) (by norm_num) (by norm_num) (by norm_num)
      (by rw [abs_lt]; constructor <;> norm_num)]
  norm_num

/-- The difference `0.32 - 0.05` in double arithmetic. -/
theorem threshold_032 :
    roundDouble (roundDouble 0.32 - roundDouble 0.05) = 4863887597560136 / 2 ^ 54 := by
  rw [roundDouble_032, roundDouble_005,
    roundDouble_eq _ 4863887597560136 (-54) (by norm_num) (by norm_num) (by norm_num)
      (by rw [abs_lt]; constructor <;> norm_num)]
  norm_num

/-- The difference `0.48 - 0.05` in double arithmetic. -/
theorem threshold_048 :
    roundDouble (roundDouble 0.48 - roundDouble 0.05) = 7746191359077253 / 2 ^ 54 := by
  rw [roundDouble_048, roundDouble_005,
    roundDouble_eq _ 7746191359077253 (-54) (by norm_num) (by norm_num) (by norm_num)
      (by rw [abs_lt]; constructor <;> norm_num)]
  norm_num

/-- The difference `0.65 - 0.05` in double arithmetic. -/
theorem threshold_065 :
    roundDouble (roundDouble 0.65 - roundDouble 0.05) = 5404319552844595 / 2 ^ 53 := by
  rw [roundDouble_065, roundDouble_005,
    roundDouble_eq _ 5404319552844595 (-53) (by norm_num) (by norm_num) (by norm_num)
      (by rw [abs_lt]; constructor <;> norm_num)]
  norm_num

/-- The difference `0.82 - 0.05` in double arithmetic. -/
theorem threshold_082 :
    roundDouble (roundDouble 0.82 - roundDouble 0.05) = 6935543426150563 / 2 ^ 53 := by
  rw [roundDouble_082, roundDouble_005,
    roundDouble_eq _ 6935543426150563 (-53) (by norm_num) (by norm_num) (by norm_num)
      (by rw [abs_lt]; constructor <;> norm_num)]
  norm_num

/-- The difference `1.00 - 0.05` in double arithmetic. -/
theorem threshold_100 :
    roundDouble (roundDouble 1.00 - roundDouble 0.05) = 8556839292003942 / 2 ^ 53 := by
  rw [roundDouble_100, roundDouble_005,
    roundDouble_eq _ 8556839292003942 (-53) (by norm_num) (by norm_num) (by norm_num)
      (by rw [abs_lt]; constructor <;> norm_num)]
  norm_num

/-- The six tests of the loop compare `progress` with these doubles: `0.09999999999999999`,
`0.27`, `0.43`, `0.6`, `0.7699999999999999` and `0.95`. -/
theorem thresholdDouble_values :
    yearMilestones.map thresholdDouble =
      [7205759403792793 / 2 ^ 56, 4863887597560136 / 2 ^ 54, 7746191359077253 / 2 ^ 54,
       5404319552844595 / 2 ^ 53, 6935543426150563 / 2 ^ 53, 8556839292003942 / 2 ^ 53] := by
  simp only [yearMilestones, List.map, thresholdDouble, threshold_015, threshold_032,
    threshold_048, threshold_065, threshold_082, threshold_100]

/-- A double is its own rounding: `0.09999999999999999` is one. -/
theorem justBelowTenth_double : roundDouble justBelowTenth = justBelowTenth := by
  unfold justBelowTenth
  rw [roundDouble_eq _ 7205759403792793 (-56) (by norm_num) (by norm_num) (by norm_num)
    (by rw [abs_lt]; constructor <;> norm_num)]
  norm_num

/-- The loop in double arithmetic, given how `progress` compares with the six doubles. -/
theorem getNearestMilestoneDouble_of (p : ℚ) (b0 b1 b2 b3 b4 b5 : Prop)
    [Decidable b0] [Decidable b1] [Decidable b2] [Decidable b3] [Decidable b4] [Decidable b5]
    (h0 : p ≥ 7205759403792793 / 2 ^ 56 ↔ b0) (h1 : p ≥ 4863887597560136 / 2 ^ 54 ↔ b1)
    (h2 : p ≥ 7746191359077253 / 2 ^ 54 ↔ b2) (h3 : p ≥ 5404319552844595 / 2 ^ 53 ↔ b3)
    (h4 : p ≥ 6935543426150563 / 2 ^ 53 ↔ b4) (h5 : p ≥ 8556839292003942 / 2 ^ 53 ↔ b5) :
    getNearestMilestoneDouble p =
      if b5 then 5 else if b4 then 4 else if b3 then 3 else if b2 then 2
      else if b1 then 1 else if b0 then 0 else -1 := by
  simp only [getNearestMilestoneDouble, yearMilestones, nearestLoopDouble, thresholdDouble,
    threshold_015, threshold_032, threshold_048, threshold_065, threshold_082, threshold_100,
    h0, h1, h2, h3, h4, h5]
  by_cases c0 : b0 <;> by_cases c1 : b1 <;> by_cases c2 : b2 <;> by_cases c3 : b3 <;>
    by_cases c4 : b4 <;> by_cases c5 : b5 <;> simp [c0, c1, c2, c3, c4, c5]

/-- After the blocks the three variables hold the index and the two targets. -/
theorem sampleBlocksDouble_ctrl (s : Stage3) (p : ℚ) (idx : Int) (t : String) (u r : Int) :
    (sampleBlocksDouble s p idx t u r).1.ctrl = Ctrl.mk idx u r := by
  simp [sampleBlocksDouble, ruralBlock_ctrl, urbanBlock_ctrl, yearBlock_ctrl]

/-- The variables after a sample for which the loop finds no milestone. -/
theorem onUpdateDouble_ctrl_none (s : Stage3) (p : ℚ)
    (h : getNearestMilestoneDouble p = -1) : (onUpdateDouble s p).1.ctrl = Ctrl.mk (-1) 0 0 := by
  unfold onUpdateDouble
  simp only [h]
  rw [if_neg (by decide), sampleBlocksDouble_ctrl]

/-- The variables after a sample for which the loop finds the first milestone. -/
theorem onUpdateDouble_ctrl_first (s : Stage3) (p : ℚ)
    (h : getNearestMilestoneDouble p = 0) : (onUpdateDouble s p).1.ctrl = Ctrl.mk 0 1 0 := by
  unfold onUpdateDouble
  simp only [h]
  have hm : milestoneAt 0 = some (Milestone.mk "2000" 0.15 1 0) := by
    simp [milestoneAt, yearMilestones]
  rw [if_pos (by decide)]
  simp only [hm]
  rw [sampleBlocksDouble_ctrl]

/-- The counterexample to C4 as stated: `0.09999999999999999` is a double with
`0 ≤ p < 0.10`, whether `0.10` is read as the real number or as its double, and it is what
`0.15 - 0.05` evaluates to in double arithmetic; so the test of the first milestone succeeds
there and after the sample the milestone index is `0` and the urban stage `1`. -/
theorem onUpdateDouble_just_below_tenth :
    roundDouble justBelowTenth = justBelowTenth ∧
    0 ≤ justBelowTenth ∧ justBelowTenth < 0.10 ∧ justBelowTenth < roundDouble 0.10 ∧
    roundDouble (roundDouble 0.15 - roundDouble 0.05) = justBelowTenth ∧
    getNearestMilestoneDouble justBelowTenth = 0 ∧
    (onUpdateDouble Stage3.initial justBelowTenth).1.ctrl = Ctrl.mk 0 1 0 ∧
    (onUpdateDouble Stage3.initial justBelowTenth).1.ctrl ≠ Ctrl.mk (-1) 0 0 := by
  have hidx : getNearestMilestoneDouble justBelowTenth = 0 := by
    rw [getNearestMilestoneDouble_of justBelowTenth True False False False False False
      (by unfold justBelowTenth; norm_num) (by unfold justBelowTenth; norm_num)
      (by unfold justBelowTenth; norm_num) (by unfold justBelowTenth; norm_num)
      (by unfold justBelowTenth; norm_num) (by unfold justBelowTenth; norm_num)]
    simp
  have hc := onUpdateDouble_ctrl_first Stage3.initial justBelowTenth hidx
  refine ⟨justBelowTenth_double, by unfold justBelowTenth; norm_num,
    by unfold justBelowTenth; norm_num, by rw [roundDouble_010]; unfold justBelowTenth; norm_num,
    by rw [threshold_015]; rfl, hidx, hc, ?_⟩
  rw [hc]
  decide

/-- C4, amended: for every double below `0.15 - 0.05` as double arithmetic evaluates it,
which is `0.09999999999999999`, in particular for every double `p` with
`0 ≤ p < 0.09999999999999999`, and every prior state, after the sample the milestone index
is `-1` and both stage variables are `0`. -/
theorem onUpdateDouble_before_first_milestone (p : ℚ) (s : Stage3)
    (h : p < roundDouble (roundDouble 0.15 - roundDouble 0.05)) :
    (onUpdateDouble s p).1.ctrl = Ctrl.mk (-1) 0 0 ∧
    getNearestMilestoneDouble p = -1 ∧
    roundDouble (roundDouble 0.15 - roundDouble 0.05) = justBelowTenth := by
  rw [threshold_015] at h
  have n0 : ¬ p ≥ 7205759403792793 / 2 ^ 56 := not_le.mpr h
  have n1 : ¬ p ≥ 4863887597560136 / 2 ^ 54 := by intro h1; norm_num at h h1; linarith
  have n2 : ¬ p ≥ 7746191359077253 / 2 ^ 54 := by intro h1; norm_num at h h1; linarith
  have n3 : ¬ p ≥ 5404319552844595 / 2 ^ 53 := by intro h1; norm_num at h h1; linarith
  have n4 : ¬ p ≥ 6935543426150563 / 2 ^ 53 := by intro h1; norm_num at h h1; linarith
  have n5 : ¬ p ≥ 8556839292003942 / 2 ^ 53 := by intro h1; norm_num at h h1; linarith
  have hidx : getNearestMilestoneDouble p = -1 := by
    rw [getNearestMilestoneDouble_of p False False False False False False
      (iff_false_intro n0) (iff_false_intro n1) (iff_false_intro n2) (iff_false_intro n3)
      (iff_false_intro n4) (iff_false_intro n5)]
    simp
  exact ⟨onUpdateDouble_ctrl_none s p hidx, hidx, by rw [threshold_015]; rfl⟩

/-- A sample for C4: the double `0.0625`, from the final state. -/
theorem onUpdateDouble_before_first_milestone_witness :
    (1 / 16 : ℚ) < roundDouble (roundDouble 0.15 - roundDouble 0.05) ∧
    (onUpdateDouble (Stage3.mk (Ctrl.mk 5 4 4) Dom.initial) (1 / 16)).1.ctrl
      = Ctrl.mk (-1) 0 0 :=
  ⟨by rw [threshold_015]; norm_num,
   (onUpdateDouble_before_first_milestone (1 / 16) (Stage3.mk (Ctrl.mk 5 4 4) Dom.initial)
      (by rw [threshold_015]; norm_num)).1⟩

/-! ## Calculator: extremes, bands and the comparison sentence -/

/-- A recognised location earns at least 3 points. -/
theorem location_recognised (key : String) (h : key ∈ locationScores.map Prod.fst) :
    ∃ n, orZero (getProperty locationScores key) = JsVal.num n ∧ 3 ≤ n := by
  simp only [locationScores, List.map, List.mem_cons, List.mem_singleton, List.not_mem_nil,
    or_false] at h
  rcases h with rfl | rfl | rfl | rfl | rfl <;>
    first
      | exact ⟨25, by decide, by decide⟩
      | exact ⟨20, by decide, by decide⟩
      | exact ⟨14, by decide, by decide⟩
      | exact ⟨8, by decide, by decide⟩
      | exact ⟨3, by decide, by decide⟩

/-- A recognised device answer earns at least 2 points. -/
theorem device_recognised (key : String) (h : key ∈ deviceScores.map Prod.fst) :
    ∃ n, orZero (getProperty deviceScores key) = JsVal.num n ∧ 2 ≤ n := by
  simp only [deviceScores, List.map, List.mem_cons, List.mem_singleton, List.not_mem_nil,
    or_false] at h
  rcases h with rfl | rfl | rfl | rfl <;>
    first
      | exact ⟨25, by decide, by decide⟩
      | exact ⟨18, by decide, by decide⟩
      | exact ⟨10, by decide, by decide⟩
      | exact ⟨2, by decide, by decide⟩

/-- A recognised internet answer earns at least 2 points. -/
theorem internet_recognised (key : String) (h : key ∈ internetScores.map Prod.fst) :
    ∃ n, orZero (getProperty internetScores key) = JsVal.num n ∧ 2 ≤ n := by
  simp only [internetScores, List.map, List.mem_cons, List.mem_singleton, List.not_mem_nil,
    or_false] at h
  rcases h with rfl | rfl | rfl | rfl <;>
    first
      | exact ⟨25, by decide, by decide⟩
      | exact ⟨18, by decide, by decide⟩
      | exact ⟨10, by decide, by decide⟩
      | exact ⟨2, by decide, by decide⟩

/-- A recognised distance earns at least 1 point. -/
theorem distance_recognised (key : String) (h : key ∈ distanceScores.map Prod.fst) :
    ∃ n, orZero (getProperty distanceScores key) = JsVal.num n ∧ 1 ≤ n := by
  simp only [distanceScores, List.map, List.mem_cons, List.mem_singleton, List.not_mem_nil,
    or_false] at h
  rcases h with rfl | rfl | rfl | rfl <;>
    first
      | exact ⟨10, by decide, by decide⟩
      | exact ⟨7, by decide, by decide⟩
      | exact ⟨4, by decide, by decide⟩
      | exact ⟨1, by decide, by decide⟩

/-- With recognised category values the score is a number, at least 9. -/
theorem computeScore_recognised (loc dev net : String) (t : Option Int) (dist : String)
    (h1 : loc ∈ locationScores.map Prod.fst) (h2 : dev ∈ deviceScores.map Prod.fst)
    (h3 : net ∈ internetScores.map Prod.fst) (h4 : dist ∈ distanceScores.map Prod.fst) :
    ∃ n, computeScore loc dev net t dist = JsVal.num n ∧ 9 ≤ n := by
  obtain ⟨a, ha, ha3⟩ := location_recognised loc h1
  obtain ⟨b, hb, hb2⟩ := device_recognised dev h2
  obtain ⟨c, hc, hc2⟩ := internet_recognised net h3
  obtain ⟨d, hd, hd1⟩ := distance_recognised dist h4
  have ht := teacherPoints_range t
  refine ⟨0 + a + b + c + teacherPoints t + d, ?_, by omega⟩
  simp only [computeScore, ha, hb, hc, hd, jsAdd]

/-- The score of the worst answers. -/
theorem computeScore_worst (t : Int) (ht : 60 < t) :
    computeScore "remote" "none" "none" (some t) "very-far" = JsVal.num 9 := by
  have h1 : orZero (getProperty locationScores "remote") = JsVal.num 3 := by decide
  have h2 : orZero (getProperty deviceScores "none") = JsVal.num 2 := by decide
  have h3 : orZero (getProperty internetScores "none") = JsVal.num 2 := by decide
  have h4 : orZero (getProperty distanceScores "very-far") = JsVal.num 1 := by decide
  have h5 : teacherPoints (some t) = 1 := by
    unfold teacherPoints jsLe
    have a1 : ¬ t ≤ 20 := by omega
    have a2 : ¬ t ≤ 30 := by omega
    have a3 : ¬ t ≤ 45 := by omega
    have a4 : ¬ t ≤ 60 := by omega
    simp [a1, a2, a3, a4]
  unfold computeScore
  simp only [h1, h2, h3, h4, h5, jsAdd]
  rfl

/-- C11: for every submission with location `remote`, device `none`, internet `none`,
distance `very-far` and a teacher-ratio field that parses to an integer above 60, the score
is `3 + 2 + 2 + 1 + 1 = 9`, the class is `score-low` and the label that of the low band; and
every submission whose four category values are recognised computes a number that is at
least 9, whatever the teacher ratio parses to. -/
theorem submit_worst_is_9 (raw : String) (t : Int) (r : CalcResult)
    (hp : parseInt10 raw = some t) (ht : 60 < t) :
    (submit (CalcForm.mk "remote" "none" "none" raw "very-far") r).score
      = some (JsVal.num (3 + 2 + 2 + 1 + 1)) ∧
    (submit (CalcForm.mk "remote" "none" "none" raw "very-far") r).score
      = some (JsVal.num 9) ∧
    (submit (CalcForm.mk "remote" "none" "none" raw "very-far") r).result.scoreClass
      = "calc-result__score score-low" ∧
    (submit (CalcForm.mk "remote" "none" "none" raw "very-far") r).result.labelText
      = "Low Access — Below national average" ∧
    (verdict (JsVal.num 9)).colorClass = "score-low" ∧
    ∀ (f : CalcForm) (r2 : CalcResult),
      f.locationType ∈ locationScores.map Prod.fst → f.deviceAccess ∈ deviceScores.map Prod.fst →
      f.internetAccess ∈ internetScores.map Prod.fst →
      f.schoolDistance ∈ distanceScores.map Prod.fst →
      ∃ n : Int, (submit f r2).score = some (JsVal.num n) ∧ 9 ≤ n := by
  have hs : submit (CalcForm.mk "remote" "none" "none" raw "very-far") r =
      SubmitOutcome.mk none (some (JsVal.num 9))
        (CalcResult.mk ((JsVal.num 9).text ++ "/100")
          ("calc-result__score " ++ (verdict (JsVal.num 9)).colorClass)
          (verdict (JsVal.num 9)).labelText (verdict (JsVal.num 9)).comparison true)
        true := by
    have hfill : ¬ (("remote" : String) = "" ∨ ("none" : String) = "" ∨
        ("none" : String) = "" ∨ ("very-far" : String) = "") := by decide
    unfold submit
    simp only [if_neg hfill, hp, computeScore_worst t ht]
  rw [hs]
  refine ⟨rfl, rfl, by decide, by decide, by decide, ?_⟩
  intro f r2 h1 h2 h3 h4
  have hfill : ¬ (f.locationType = "" ∨ f.deviceAccess = "" ∨ f.internetAccess = "" ∨
      f.schoolDistance = "") := by
    rintro (h | h | h | h)
    · rw [h] at h1; exact absurd h1 (by decide)
    · rw [h] at h2; exact absurd h2 (by decide)
    · rw [h] at h3; exact absurd h3 (by decide)
    · rw [h] at h4; exact absurd h4 (by decide)
  obtain ⟨n, hn, h9⟩ := computeScore_recognised f.locationType f.deviceAccess f.internetAccess
    (parseInt10 f.teacherRatio) f.schoolDistance h1 h2 h3 h4
  exact ⟨n, by rw [(submit_of_filled f r2 hfill).2, hn], h9⟩

/-- The submission of C11 with the teacher ratio 70. -/
theorem submit_worst_is_9_witness :
    parseInt10 "70" = some 70 ∧ (60 : Int) < 70 ∧
    (submit (CalcForm.mk "remote" "none" "none" "70" "very-far") CalcResult.hidden).score
      = some (JsVal.num 9) :=
  ⟨by decide, by decide,
   (submit_worst_is_9 "70" 70 CalcResult.hidden (by decide) (by decide)).2.1⟩

/-- The result block the handler writes for the score it computed. -/
theorem submit_result_of_score (f : CalcForm) (r : CalcResult) (v : JsVal)
    (h : (submit f r).score = some v) :
    (submit f r).result = CalcResult.mk (v.text ++ "/100")
      ("calc-result__score " ++ (verdict v).colorClass) (verdict v).labelText
      (verdict v).comparison true := by
  by_cases hemp : f.locationType = "" ∨ f.deviceAccess = "" ∨ f.internetAccess = "" ∨
      f.schoolDistance = ""
  · rw [submit_of_empty f r hemp] at h
    cases h
  · have hs := (submit_of_filled f r hemp).2
    rw [hs] at h
    have hv := Option.some.inj h
    unfold submit
    simp only [if_neg hemp, hv]

/-- The class and the label of a numeric score, by band. -/
theorem verdict_num_class (n : Int) :
    (verdict (JsVal.num n)).colorClass =
      (if 75 ≤ n then "score-high" else if 45 ≤ n then "score-mid" else "score-low") ∧
    (verdict (JsVal.num n)).labelText =
      (if 75 ≤ n then "High Access — Well above average"
       else if 45 ≤ n then "Moderate Access — Near national average"
       else "Low Access — Below national average") := by
  unfold verdict
  simp only [toNumber, jsGe, ge_iff_le, decide_eq_true_eq]
  split_ifs <;> exact ⟨rfl, rfl⟩

/-- A score that is a string is no number: both comparisons fail and the band is the low
one, with `NaN` for the difference. -/
theorem verdict_str (s : String) :
    (verdict (JsVal.str s)).colorClass = "score-low" ∧
    (verdict (JsVal.str s)).comparison =
      "Your score of " ++ s ++ "/100 is NaN points below the national average of 52. This reflects the systemic challenges faced by millions of students." := by
  unfold verdict
  simp only [toNumber, jsGe, Bool.false_eq_true, if_false, JsVal.text, Option.map, numberText]
  refine ⟨trivial, ?_⟩
  simp only [String.append_assoc]
  rfl

/-- C12: every value of the score gets exactly one of the three classes, and for every
integer score the class and label are those of the high band (`score-high`, `High Access`)
if and only if `score ≥ 75`, of the moderate band (`score-mid`, `Moderate Access`) if and
only if `45 ≤ score ≤ 74`, and of the low band (`score-low`, `Low Access`) if and only if
`score ≤ 44`; the class written to the result block is that class. -/
theorem verdict_bands (n : Int) :
    (((verdict (JsVal.num n)).colorClass = "score-high" ∧
        (verdict (JsVal.num n)).labelText = "High Access — Well above average") ↔ 75 ≤ n) ∧
    (((verdict (JsVal.num n)).colorClass = "score-mid" ∧
        (verdict (JsVal.num n)).labelText = "Moderate Access — Near national average") ↔
      (45 ≤ n ∧ n ≤ 74)) ∧
    (((verdict (JsVal.num n)).colorClass = "score-low" ∧
        (verdict (JsVal.num n)).labelText = "Low Access — Below national average") ↔ n ≤ 44) ∧
    ((verdict (JsVal.num n)).colorClass = "score-high" ↔ 75 ≤ n) ∧
    ((verdict (JsVal.num n)).colorClass = "score-mid" ↔ (45 ≤ n ∧ n ≤ 74)) ∧
    ((verdict (JsVal.num n)).colorClass = "score-low" ↔ n ≤ 44) ∧
    (∀ v : JsVal, ((verdict v).colorClass = "score-high" ∧ (verdict v).colorClass ≠ "score-mid" ∧
          (verdict v).colorClass ≠ "score-low") ∨
        ((verdict v).colorClass ≠ "score-high" ∧ (verdict v).colorClass = "score-mid" ∧
          (verdict v).colorClass ≠ "score-low") ∨
        ((verdict v).colorClass ≠ "score-high" ∧ (verdict v).colorClass ≠ "score-mid" ∧
          (verdict v).colorClass = "score-low")) ∧
    (∀ (f : CalcForm) (r : CalcResult) (v : JsVal), (submit f r).score = some v →
      (submit f r).result.scoreClass = "calc-result__score " ++ (verdict v).colorClass ∧
      (submit f r).result.labelText = (verdict v).labelText) := by
  have hc := (verdict_num_class n).1
  have hl := (verdict_num_class n).2
  have d1 : ("score-mid" : String) ≠ "score-high" := by decide
  have d2 : ("score-low" : String) ≠ "score-high" := by decide
  have d3 : ("score-high" : String) ≠ "score-mid" := by decide
  have d4 : ("score-low" : String) ≠ "score-mid" := by decide
  have d5 : ("score-high" : String) ≠ "score-low" := by decide
  have d6 : ("score-mid" : String) ≠ "score-low" := by decide
  have hone : ∀ v : JsVal, (verdict v).colorClass = "score-high" ∨
      (verdict v).colorClass = "score-mid" ∨ (verdict v).colorClass = "score-low" := by
    intro v
    cases v with
    | num m =>
      rw [(verdict_num_class m).1]
      split_ifs
      · exact Or.inl rfl
      · exact Or.inr (Or.inl rfl)
      · exact Or.inr (Or.inr rfl)
    | str s => exact Or.inr (Or.inr (verdict_str s).1)
  refine ⟨?_, ?_, ?_, ?_, ?_, ?_, ?_, ?_⟩
  · rw [hc, hl]; split_ifs <;> simp_all
  · rw [hc, hl]; split_ifs <;> simp_all <;> omega
  · rw [hc, hl]; split_ifs <;> simp_all <;> omega
  · rw [hc]; split_ifs <;> simp_all
  · rw [hc]; split_ifs <;> simp_all <;> omega
  · rw [hc]; split_ifs <;> simp_all <;> omega
  · intro v
    rcases hone v with h | h | h
    · exact Or.inl ⟨h, by rw [h]; exact d3, by rw [h]; exact d5⟩
    · exact Or.inr (Or.inl ⟨by rw [h]; exact d1, h, by rw [h]; exact d6⟩)
    · exact Or.inr (Or.inr ⟨by rw [h]; exact d2, by rw [h]; exact d4, h⟩)
  · intro f r v hv
    rw [submit_result_of_score f r v hv]
    exact ⟨rfl, rfl⟩

/-- C19: for every integer score, the comparison sentence reports the point difference
`|score - 52|`, which is not negative, with the word `above` if and only if `score ≥ 52`
and `below` otherwise; the high and the low branch, which do not compare with 52, print
`score - 52 > 0` and `52 - score > 0`; the sentence is what the handler writes to the
result block. -/
theorem verdict_comparison (n : Int) :
    (verdict (JsVal.num n)).comparison =
      "Your score of " ++ toString n ++ "/100 is " ++ toString |n - 52| ++ " points " ++
        (if 52 ≤ n then "above" else "below") ++ " the national average of 52." ++
        (if n ≤ 44 then " This reflects the systemic challenges faced by millions of students."
         else "") ∧
    0 ≤ |n - 52| ∧
    (75 ≤ n → |n - 52| = n - 52 ∧ 0 < n - 52) ∧
    (n ≤ 44 → |n - 52| = 52 - n ∧ 0 < 52 - n) ∧
    (∀ (f : CalcForm) (r : CalcResult), (submit f r).score = some (JsVal.num n) →
      (submit f r).result.comparisonText = (verdict (JsVal.num n)).comparison) := by
  refine ⟨?_, abs_nonneg _, fun h => ⟨abs_of_nonneg (by omega), by omega⟩,
    fun h => ⟨by rw [abs_of_neg (by omega)]; omega, by omega⟩,
    fun f r h => by rw [submit_result_of_score f r _ h]⟩
  have e1 : " points above the national average of " ++ (toString nationalAvg ++ ".") =
      " points " ++ ("above" ++ (" the national average of 52." ++ "")) := by decide
  have e2 : " points above" ++ (" the national average of " ++ (toString nationalAvg ++ ".")) =
      " points " ++ ("above" ++ (" the national average of 52." ++ "")) := by decide
  have e3 : " points below" ++ (" the national average of " ++ (toString nationalAvg ++ ".")) =
      " points " ++ ("below" ++ (" the national average of 52." ++ "")) := by decide
  have e4 : " points below the national average of " ++ (toString nationalAvg ++
      ". This reflects the systemic challenges faced by millions of students.") =
      " points " ++ ("below" ++ (" the national average of 52." ++
        " This reflects the systemic challenges faced by millions of students.")) := by decide
  unfold verdict
  simp only [toNumber, jsGe, ge_iff_le, decide_eq_true_eq, JsVal.text, Option.map, numberText,
    nationalAvg]
  by_cases h75 : 75 ≤ n
  · have h52 : (52 : Int) ≤ n := by omega
    have h44 : ¬ n ≤ 44 := by omega
    rw [if_pos h75, if_pos h52, if_neg h44, abs_of_nonneg (by omega : (0 : Int) ≤ n - 52)]
    simp only [String.append_assoc]
    rw [show (52 : Int) = nationalAvg from rfl, e1]
  · rw [if_neg h75]
    by_cases h45 : 45 ≤ n
    · have h44 : ¬ n ≤ 44 := by omega
      rw [if_pos h45, if_neg h44]
      by_cases h52 : 52 ≤ n
      · rw [if_pos h52, if_pos h52, abs_of_nonneg (by omega : (0 : Int) ≤ n - 52)]
        simp only [String.append_assoc]
        rw [show (52 : Int) = nationalAvg from rfl, e2]
      · rw [if_neg h52, if_neg h52, abs_of_neg (by omega : n - 52 < 0), neg_sub]
        simp only [String.append_assoc]
        rw [show (52 : Int) = nationalAvg from rfl, e3]
    · have h44 : n ≤ 44 := by omega
      have h52 : ¬ (52 : Int) ≤ n := by omega
      rw [if_neg h45, if_pos h44, if_neg h52, abs_of_neg (by omega : n - 52 < 0), neg_sub]
      simp only [String.append_assoc]
      rw [show (52 : Int) = nationalAvg from rfl, e4]

/-! ## Charts and start-up -/

/-- Two constructors never share a canvas. -/
theorem canvasId_injective : ∀ j k : ChartKey, j.canvasId = k.canvasId → j = k := by
  intro j k h
  cases j <;> cases k <;> first | rfl | exact absurd h (by decide)

/-- A call that finds the canvas absent or the cache filled changes nothing. -/
theorem createChart_skips (k : ChartKey) (env : ChartEnv) (s : Charts)
    (h : env.mountPresent = false ∨ (s.chartInstances k).isSome = true) :
    createChart k env s = (s, Run.skipped) := by
  unfold createChart
  rw [if_pos h]

/-- After any call, the charts constructed so far on a canvas are exactly what the cache
holds for it, provided that was so before. -/
theorem createChart_cache (j : ChartKey) (env : ChartEnv) (s : Charts)
    (h : ∀ k, instancesFor k s = (s.chartInstances k).toList) :
    ∀ k, instancesFor k (createChart j env s).1 = ((createChart j env s).1.chartInstances k).toList := by
  intro k
  unfold createChart
  split_ifs with h1 h2
  · exact h k
  · exact h k
  · have hnone : s.chartInstances j = none := by
      cases hj : s.chartInstances j with
      | none => rfl
      | some c => exact absurd (Or.inr (by rw [hj]; rfl)) h1
    by_cases hkj : k = j
    · subst hkj
      have hold := h k
      rw [hnone] at hold
      simp only [instancesFor] at hold ⊢
      simp [List.filter_append, hold]
    · have hne : j.canvasId ≠ k.canvasId := fun e => hkj (canvasId_injective j k e).symm
      have hold := h k
      simp only [instancesFor] at hold ⊢
      simp [List.filter_append, hold, hne, Function.update_noteq hkj]

/-- The same over a sequence of calls. -/
theorem runChartCalls_cache (calls : List (ChartKey × ChartEnv)) :
    ∀ s : Charts, (∀ k, instancesFor k s = (s.chartInstances k).toList) →
      ∀ k, instancesFor k (runChartCalls s calls) = ((runChartCalls s calls).chartInstances k).toList := by
  induction calls with
  | nil => intro s h; exact h
  | cons c rest ih =>
    intro s h
    exact ih (createChart c.1 c.2 s).1 (createChart_cache c.1 c.2 s h)

/-- Calls to one constructor construct charts on its canvas only. -/
theorem runChartCalls_same_key (k : ChartKey) (envs : List ChartEnv) :
    ∀ s : Charts, (∀ c ∈ s.constructed, c.canvasId = k.canvasId) →
      ∀ c ∈ (runChartCalls s (envs.map (fun e => (k, e)))).constructed,
        c.canvasId = k.canvasId := by
  induction envs with
  | nil => intro s h; exact h
  | cons e rest ih =>
    intro s h
    refine ih (createChart k e s).1 ?_
    unfold createChart
    split_ifs
    · exact h
    · exact h
    · intro c hc
      rcases List.mem_append.mp hc with hc | hc
      · exact h c hc
      · rw [List.mem_singleton.mp hc]

/-- C13: for each of the six constructors `k`: over every sequence of constructor calls on
the freshly loaded script, whatever each call finds on the page, at most one chart is ever
constructed on the canvas of `k`, and a sequence of calls to `k` alone constructs at most
one chart in all; a call that finds a chart cached constructs nothing and leaves the cache
and the cached object as they are; a call that finds the canvas absent constructs nothing
and caches nothing. -/
theorem chart_constructed_at_most_once (k : ChartKey) :
    (∀ calls : List (ChartKey × ChartEnv),
      (instancesFor k (runChartCalls Charts.empty calls)).length ≤ 1) ∧
    (∀ envs : List ChartEnv,
      (runChartCalls Charts.empty (envs.map (fun e => (k, e)))).constructed.length ≤ 1) ∧
    (∀ (s : Charts) (env : ChartEnv) (c : ChartInstance), s.chartInstances k = some c →
      createChart k env s = (s, Run.skipped) ∧
      (createChart k env s).1.chartInstances k = some c ∧
      (createChart k env s).1.constructed = s.constructed) ∧
    (∀ (s : Charts) (env : ChartEnv), env.mountPresent = false →
      createChart k env s = (s, Run.skipped) ∧
      (createChart k env s).1.chartInstances k = s.chartInstances k ∧
      (createChart k env s).1.constructed = s.constructed) := by
  have hinit : ∀ j, instancesFor j Charts.empty = (Charts.empty.chartInstances j).toList := by
    intro j
    rfl
  have hone : ∀ calls : List (ChartKey × ChartEnv),
      (instancesFor k (runChartCalls Charts.empty calls)).length ≤ 1 := by
    intro calls
    rw [runChartCalls_cache calls Charts.empty hinit k]
    cases (runChartCalls Charts.empty calls).chartInstances k <;> simp
  refine ⟨hone, ?_, ?_, ?_⟩
  · intro envs
    have hall := runChartCalls_same_key k envs Charts.empty (by intro c hc; cases hc)
    have hfilter : instancesFor k (runChartCalls Charts.empty (envs.map (fun e => (k, e)))) =
        (runChartCalls Charts.empty (envs.map (fun e => (k, e)))).constructed := by
      unfold instancesFor
      rw [List.filter_eq_self]
      intro c hc
      simpa using hall c hc
    rw [← hfilter]
    exact hone _
  · intro s env c hc
    have h := createChart_skips k env s (Or.inr (by rw [hc]; rfl))
    rw [h]
    exact ⟨rfl, hc, rfl⟩
  · intro s env hm
    have h := createChart_skips k env s (Or.inl hm)
    rw [h]
    exact ⟨rfl, rfl, rfl⟩

/-- The counterexample to C17 as stated: with the canvas present, nothing cached and the
charting library absent, a chart constructor raises a `ReferenceError`; and when
`ScrollTrigger` is absent while `gsap` is present at window load, the `load` listener calls
`initAnimations`, which raises one too. -/
theorem collaborator_absent_raises :
    (createInternetChart2005 (ChartEnv.mk true false) Charts.empty).2
      = Run.raised "ReferenceError: Chart is not defined" ∧
    (chartTrigger true ChartKey.dropout (ChartEnv.mk true false) Charts.empty).2
      = Run.raised "ReferenceError: Chart is not defined" ∧
    startAnimations (Globals.mk false false) (Globals.mk true false)
      = Run.raised "ReferenceError: ScrollTrigger is not defined" := by
  decide

/-- C17, amended: at `DOMContentLoaded`, `initAnimations` runs at once exactly when both
`gsap` and `ScrollTrigger` are defined, and then no collaborator is missing; otherwise it
waits for window load, where it is skipped without error when `gsap` is absent and runs
when both are defined. A chart trigger calls its constructor only when `window.PFCharts`
exists and is skipped otherwise. A chart constructor does not test `Chart`: it returns
without error when the canvas is absent or a chart is cached, and otherwise evaluates
`new Chart`, which builds and caches the chart when `Chart` is defined and raises a
`ReferenceError`, caching nothing, when it is not. -/
theorem collaborators_checked :
    (∀ atReady atLoad : Globals, atReady.gsap = true → atReady.scrollTrigger = true →
      startAnimations atReady atLoad = Run.completed) ∧
    (∀ atReady atLoad : Globals, ¬ (atReady.gsap = true ∧ atReady.scrollTrigger = true) →
      atLoad.gsap = false → startAnimations atReady atLoad = Run.skipped) ∧
    (∀ atReady atLoad : Globals, ¬ (atReady.gsap = true ∧ atReady.scrollTrigger = true) →
      atLoad.gsap = true → atLoad.scrollTrigger = true →
      startAnimations atReady atLoad = Run.completed) ∧
    (∀ (k : ChartKey) (env : ChartEnv) (s : Charts),
      chartTrigger false k env s = (s, Run.skipped)) ∧
    (∀ (k : ChartKey) (env : ChartEnv) (s : Charts),
      chartTrigger true k env s = createChart k env s) ∧
    (∀ (k : ChartKey) (env : ChartEnv) (s : Charts),
      env.mountPresent = false ∨ (s.chartInstances k).isSome = true →
      createChart k env s = (s, Run.skipped)) ∧
    (∀ (k : ChartKey) (s : Charts), s.chartInstances k = none →
      (createChart k (ChartEnv.mk true true) s).2 = Run.completed ∧
      (createChart k (ChartEnv.mk true true) s).1.chartInstances k
        = some (ChartInstance.mk k.canvasId k.chartType s.constructed.length)) ∧
    (∀ (k : ChartKey) (s : Charts), s.chartInstances k = none →
      createChart k (ChartEnv.mk true false) s
        = (s, Run.raised "ReferenceError: Chart is not defined")) := by
  refine ⟨?_, ?_, ?_, ?_, ?_, ?_, ?_, ?_⟩
  · intro a b h1 h2
    simp [startAnimations, initAnimations, h1, h2]
  · intro a b h1 h2
    simp only [startAnimations, if_neg h1, h2, Bool.false_eq_true, if_false]
  · intro a b h1 h2 h3
    simp [startAnimations, initAnimations, if_neg h1, h2, h3]
  · intro k env s
    simp [chartTrigger]
  · intro k env s
    simp [chartTrigger]
  · intro k env s h
    exact createChart_skips k env s h
  · intro k s h
    simp [createChart, h]
  · intro k s h
    simp [createChart, h]

/-! ## Cursor follower -/

/-- One frame, coordinate by coordinate. -/
theorem updateCursor_fields (s : CursorState) :
    (updateCursor s).mouseX = s.mouseX ∧ (updateCursor s).mouseY = s.mouseY ∧
    (updateCursor s).cursorX = s.cursorX + 0.12 * (s.mouseX - s.cursorX) ∧
    (updateCursor s).cursorY = s.cursorY + 0.12 * (s.mouseY - s.cursorY) ∧
    (updateCursor s).dotX = s.dotX + 0.6 * (s.mouseX - s.dotX) ∧
    (updateCursor s).dotY = s.dotY + 0.6 * (s.mouseY - s.dotY) := by
  refine ⟨rfl, rfl, ?_, ?_, ?_, ?_⟩ <;> simp only [updateCursor] <;> ring

/-- The state after `n` frames with the pointer held still, in closed form. -/
theorem frames_fields (n : Nat) :
    ∀ s : CursorState,
      (frames n s).mouseX = s.mouseX ∧ (frames n s).mouseY = s.mouseY ∧
      (frames n s).cursorX = s.mouseX + 0.88 ^ n * (s.cursorX - s.mouseX) ∧
      (frames n s).cursorY = s.mouseY + 0.88 ^ n * (s.cursorY - s.mouseY) ∧
      (frames n s).dotX = s.mouseX + 0.4 ^ n * (s.dotX - s.mouseX) ∧
      (frames n s).dotY = s.mouseY + 0.4 ^ n * (s.dotY - s.mouseY) := by
  induction n with
  | zero => intro s; simp [frames]
  | succ n ih =>
    intro s
    obtain ⟨h1, h2, h3, h4, h5, h6⟩ := ih (updateCursor s)
    obtain ⟨u1, u2, u3, u4, u5, u6⟩ := updateCursor_fields s
    simp only [frames]
    rw [h1, h2, h3, h4, h5, h6, u1, u2, u3, u4, u5, u6]
    refine ⟨rfl, rfl, ?_, ?_, ?_, ?_⟩ <;> ring

/-- A point at `t + c ^ n * d` with `0 ≤ c ≤ 1` stays on the side of `t` where it started
and does not move away from `t` from one `n` to the next. -/
theorem approach_bounds (c t d : ℚ) (n : Nat) (h0 : 0 ≤ c) (h1 : c ≤ 1) :
    (d ≤ 0 → t + c ^ n * d ≤ t) ∧ (0 ≤ d → t ≤ t + c ^ n * d) ∧
    |t + c ^ (n + 1) * d - t| ≤ |t + c ^ n * d - t| := by
  have hp : 0 ≤ c ^ n := pow_nonneg h0 n
  refine ⟨fun hd => ?_, fun hd => ?_, ?_⟩
  · have := mul_nonpos_of_nonneg_of_nonpos hp hd
    linarith
  · have := mul_nonneg hp hd
    linarith
  · have e1 : t + c ^ (n + 1) * d - t = c * (c ^ n * d) := by ring
    have e2 : t + c ^ n * d - t = c ^ n * d := by ring
    rw [e1, e2, abs_mul, abs_of_nonneg h0]
    exact mul_le_of_le_one_left (abs_nonneg _) h1

/-- C15: with the pointer held at a fixed target and in exact arithmetic, one frame moves
each coordinate of the ring from `x` to `x + 0.12 * (t - x)` and of the dot to
`x + 0.6 * (t - x)`, and writes them as the inline positions; after `n` frames the offset of
the ring from the target is `0.88 ^ n` times and that of the dot `0.4 ^ n` times the initial
offset; no coordinate passes the target, and the distance of each to the target does not
grow from one frame to the next. -/
theorem cursor_approaches_pointer (s : CursorState) (n : Nat) :
    ((updateCursor s).cursorX = s.cursorX + 0.12 * (s.mouseX - s.cursorX) ∧
      (updateCursor s).cursorY = s.cursorY + 0.12 * (s.mouseY - s.cursorY) ∧
      (updateCursor s).dotX = s.dotX + 0.6 * (s.mouseX - s.dotX) ∧
      (updateCursor s).dotY = s.dotY + 0.6 * (s.mouseY - s.dotY)) ∧
    ((updateCursor s).ringLeft = (updateCursor s).cursorX ∧
      (updateCursor s).ringTop = (updateCursor s).cursorY ∧
      (updateCursor s).dotLeft = (updateCursor s).dotX ∧
      (updateCursor s).dotTop = (updateCursor s).dotY) ∧
    ((frames n s).cursorX - s.mouseX = 0.88 ^ n * (s.cursorX - s.mouseX) ∧
      (frames n s).cursorY - s.mouseY = 0.88 ^ n * (s.cursorY - s.mouseY) ∧
      (frames n s).dotX - s.mouseX = 0.4 ^ n * (s.dotX - s.mouseX) ∧
      (frames n s).dotY - s.mouseY = 0.4 ^ n * (s.dotY - s.mouseY)) ∧
    ((s.cursorX ≤ s.mouseX → (frames n s).cursorX ≤ s.mouseX) ∧
      (s.mouseX ≤ s.cursorX → s.mouseX ≤ (frames n s).cursorX) ∧
      (s.cursorY ≤ s.mouseY → (frames n s).cursorY ≤ s.mouseY) ∧
      (s.mouseY ≤ s.cursorY → s.mouseY ≤ (frames n s).cursorY) ∧
      (s.dotX ≤ s.mouseX → (frames n s).dotX ≤ s.mouseX) ∧
      (s.mouseX ≤ s.dotX → s.mouseX ≤ (frames n s).dotX) ∧
      (s.dotY ≤ s.mouseY → (frames n s).dotY ≤ s.mouseY) ∧
      (s.mouseY ≤ s.dotY → s.mouseY ≤ (frames n s).dotY)) ∧
    (|(frames (n + 1) s).cursorX - s.mouseX| ≤ |(frames n s).cursorX - s.mouseX| ∧
      |(frames (n + 1) s).cursorY - s.mouseY| ≤ |(frames n s).cursorY - s.mouseY| ∧
      |(frames (n + 1) s).dotX - s.mouseX| ≤ |(frames n s).dotX - s.mouseX| ∧
      |(frames (n + 1) s).dotY - s.mouseY| ≤ |(frames n s).dotY - s.mouseY|) := by
  obtain ⟨-, -, u3, u4, u5, u6⟩ := updateCursor_fields s
  obtain ⟨-, -, f3, f4, f5, f6⟩ := frames_fields n s
  obtain ⟨-, -, g3, g4, g5, g6⟩ := frames_fields (n + 1) s
  have r0 : (0 : ℚ) ≤ 0.88 := by norm_num
  have r1 : (0.88 : ℚ) ≤ 1 := by norm_num
  have d0 : (0 : ℚ) ≤ 0.4 := by norm_num
  have d1 : (0.4 : ℚ) ≤ 1 := by norm_num
  have bx := approach_bounds 0.88 s.mouseX (s.cursorX - s.mouseX) n r0 r1
  have bY := approach_bounds 0.88 s.mouseY (s.cursorY - s.mouseY) n r0 r1
  have cx := approach_bounds 0.4 s.mouseX (s.dotX - s.mouseX) n d0 d1
  have cY := approach_bounds 0.4 s.mouseY (s.dotY - s.mouseY) n d0 d1
  refine ⟨⟨u3, u4, u5, u6⟩, ⟨rfl, rfl, rfl, rfl⟩, ⟨?_, ?_, ?_, ?_⟩,
    ⟨?_, ?_, ?_, ?_, ?_, ?_, ?_, ?_⟩, ⟨?_, ?_, ?_, ?_⟩⟩
  · rw [f3]; ring
  · rw [f4]; ring
  · rw [f5]; ring
  · rw [f6]; ring
  · intro h; rw [f3]; exact bx.1 (by linarith)
  · intro h; rw [f3]; exact bx.2.1 (by linarith)
  · intro h; rw [f4]; exact bY.1 (by linarith)
  · intro h; rw [f4]; exact bY.2.1 (by linarith)
  · intro h; rw [f5]; exact cx.1 (by linarith)
  · intro h; rw [f5]; exact cx.2.1 (by linarith)
  · intro h; rw [f6]; exact cY.1 (by linarith)
  · intro h; rw [f6]; exact cY.2.1 (by linarith)
  · rw [f3, g3]; exact bx.2.2
  · rw [f4, g4]; exact bY.2.2
  · rw [f5, g5]; exact cx.2.2
  · rw [f6, g6]; exact cY.2.2

/-! ## Section navigation -/

/-- A dot found by the property read is a dot of the list, and the key is its index in
decimal. -/
theorem lookupDot_element (n : Nat) (key : String) (i : Nat)
    (h : lookupDot n key = DotLookup.element i) : i < n ∧ toString i = key := by
  unfold lookupDot at h
  cases hf : (List.range n).find? (fun i => toString i = key) with
  | none =>
    rw [hf] at h
    simp only [] at h
    split_ifs at h
  | some j =>
    rw [hf] at h
    simp only [DotLookup.element.injEq] at h
    subst h
    have hm := List.mem_of_find?_eq_some hf
    have hp := List.find?_some hf
    exact ⟨List.mem_range.mp hm, by simpa using hp⟩

/-- Clearing every dot and marking dot `i` leaves exactly dot `i` marked. -/
theorem onlyActive_set (dots : List Bool) (i : Nat) (h : i < dots.length) :
    OnlyActive ((dots.map (fun _ => false)).set i true) (i : Int) := by
  refine ⟨by omega, by simp only [List.length_set, List.length_map]; omega, ?_⟩
  intro j
  by_cases hji : i = j
  · subst hji
    simp [List.getElem?_set, h]
  · rw [List.getElem?_set_ne hji]
    simp only [List.getElem?_map]
    constructor
    · intro hj
      cases hd : dots[j]? with
      | none => rw [hd] at hj; simp at hj
      | some b => rw [hd] at hj; simp at hj
    · intro hj
      exact absurd (by exact_mod_cast hj.symm) hji

/-- After clearing, no dot is marked. -/
theorem cleared_none (dots : List Bool) (j : Nat) :
    (dots.map (fun _ => false))[j]? ≠ some true := by
  simp only [List.getElem?_map]
  cases dots[j]? <;> simp

/-- An entry does not change the number of dots. -/
theorem processEntry_length (s : NavState) (e : NavEntry) :
    (processEntry s e).1.dots.length = s.dots.length := by
  unfold processEntry
  split_ifs
  · cases lookupDot s.dots.length e.dataSection <;> simp
  · rfl

/-- The dots an intersecting entry leaves depend on the state only through the number of
dots. -/
theorem processEntry_dots_congr (s1 s2 : NavState) (e : NavEntry)
    (h : s1.dots.length = s2.dots.length) (he : e.isIntersecting = true) :
    (processEntry s1 e).1.dots = (processEntry s2 e).1.dots := by
  unfold processEntry
  simp only [he, if_true, List.map_const', h]
  cases lookupDot s2.dots.length e.dataSection <;> rfl

/-- A batch without intersecting entries leaves the dots alone. -/
theorem observerCallback_no_intersecting (entries : List NavEntry) :
    ∀ s : NavState, (∀ x ∈ entries, x.isIntersecting = false) →
      (observerCallback s entries).2 = Run.completed ∧
      (observerCallback s entries).1.dots = s.dots := by
  induction entries with
  | nil => intro s _; exact ⟨rfl, rfl⟩
  | cons e rest ih =>
    intro s h
    have he : e.isIntersecting = false := h e (List.mem_cons_self _ _)
    have hp : processEntry s e = (NavState.mk (s.sections.set e.target false) s.dots, Run.completed) := by
      simp [processEntry, he]
    simp only [observerCallback, hp]
    exact ih _ (fun x hx => h x (List.mem_cons_of_mem _ hx))

/-- The last intersecting entry of a batch with one more entry in front. -/
theorem lastIntersecting_cons (e : NavEntry) (rest : List NavEntry) :
    lastIntersecting (e :: rest) =
      match lastIntersecting rest with
      | some l => some l
      | none => if e.isIntersecting = true then some e else none := by
  unfold lastIntersecting
  rw [List.filter_cons]
  by_cases he : e.isIntersecting = true
  · simp only [he, if_true]
    rw [List.getLast?_cons]
    cases (List.filter (fun e => e.isIntersecting) rest).getLast? <;> rfl
  · have hf : e.isIntersecting = false := by simpa using he
    simp only [hf, Bool.false_eq_true, if_false]
    cases (List.filter (fun e => e.isIntersecting) rest).getLast? <;> rfl

/-- A batch has no last intersecting entry exactly when no entry intersects. -/
theorem lastIntersecting_none (entries : List NavEntry)
    (h : lastIntersecting entries = none) : ∀ x ∈ entries, x.isIntersecting = false := by
  unfold lastIntersecting at h
  rw [List.getLast?_eq_none_iff, List.filter_eq_nil_iff] at h
  intro x hx
  simpa using h x hx

/-- When no intersecting entry of the batch raises, the callback completes and the dots are
those the last intersecting entry leaves. -/
theorem observerCallback_last (entries : List NavEntry) :
    ∀ (s : NavState) (e : NavEntry), lastIntersecting entries = some e →
      (∀ x ∈ entries, x.isIntersecting = true →
        lookupDot s.dots.length x.dataSection ≠ DotLookup.other) →
      (observerCallback s entries).2 = Run.completed ∧
      (observerCallback s entries).1.dots = (processEntry s e).1.dots ∧
      e.isIntersecting = true := by
  induction entries with
  | nil => intro s e h; simp [lastIntersecting] at h
  | cons e0 rest ih =>
    intro s e hlast hok
    have hrun : (processEntry s e0).2 = Run.completed := by
      unfold processEntry
      by_cases h0 : e0.isIntersecting = true
      · have hno := hok e0 (List.mem_cons_self _ _) h0
        simp only [h0, if_true]
        cases hl : lookupDot s.dots.length e0.dataSection with
        | element i => rfl
        | undefined => rfl
        | other => exact absurd hl hno
      · simp only [h0]
        rfl
    have hlen := processEntry_length s e0
    have hstep : observerCallback s (e0 :: rest) = observerCallback (processEntry s e0).1 rest := by
      cases hp : processEntry s e0 with
      | mk s1 r =>
        rw [hp] at hrun
        simp only [] at hrun
        subst hrun
        simp only [observerCallback, hp]
    rw [hstep]
    rw [lastIntersecting_cons] at hlast
    cases hr : lastIntersecting rest with
    | some l =>
      rw [hr] at hlast
      simp only [Option.some.injEq] at hlast
      subst hlast
      have hok2 : ∀ x ∈ rest, x.isIntersecting = true →
          lookupDot (processEntry s e0).1.dots.length x.dataSection ≠ DotLookup.other := by
        intro x hx hxi
        rw [hlen]
        exact hok x (List.mem_cons_of_mem _ hx) hxi
      obtain ⟨h1, h2, h3⟩ := ih (processEntry s e0).1 l hr hok2
      exact ⟨h1, by rw [h2]; exact processEntry_dots_congr _ _ l hlen h3, h3⟩
    | none =>
      rw [hr] at hlast
      simp only [] at hlast
      by_cases h0 : e0.isIntersecting = true
      · rw [if_pos h0] at hlast
        simp only [Option.some.injEq] at hlast
        subst hlast
        obtain ⟨h1, h2⟩ := observerCallback_no_intersecting rest (processEntry s e0).1
          (lastIntersecting_none rest hr)
        exact ⟨h1, h2, h0⟩
      · rw [if_neg h0] at hlast
        cases hlast

/-- The counterexample to C16 as stated: with two dots, a batch whose only entry intersects
and carries `data-section="5"` leaves no dot with the class `active`, the optional chaining
having skipped the `add`; and with `data-section="length"` the callback raises a
`TypeError` after clearing the dots. -/
theorem observer_unmatched_section_no_dot :
    lastIntersecting [NavEntry.mk 0 "5" true] = some (NavEntry.mk 0 "5" true) ∧
    observerCallback (NavState.mk [false] [true, false]) [NavEntry.mk 0 "5" true]
      = (NavState.mk [true] [false, false], Run.completed) ∧
    (¬ ∃ i : Nat, OnlyActive
      (observerCallback (NavState.mk [false] [true, false]) [NavEntry.mk 0 "5" true]).1.dots i) ∧
    observerCallback (NavState.mk [false] [true, false]) [NavEntry.mk 0 "length" true]
      = (NavState.mk [true] [false, false],
         Run.raised "TypeError: Cannot read properties of undefined (reading 'add')") := by
  have h : observerCallback (NavState.mk [false] [true, false]) [NavEntry.mk 0 "5" true]
      = (NavState.mk [true] [false, false], Run.completed) := by decide
  refine ⟨by decide, h, ?_, by decide⟩
  rw [h]
  rintro ⟨i, -, -, hi⟩
  have h2 := (hi i).mpr rfl
  rcases i with _ | _ | i <;> simp at h2

/-- C16, amended: after the observer callback processes a batch that contains at least one
intersecting entry and in which no intersecting entry's `data-section` value names a
property of the dot list other than an index, the callback completes and: if the
`data-section` value of the last intersecting entry is the index of a dot, exactly one dot
carries the class `active`, the dot at that index; if it names no dot, no dot carries
it. -/
theorem observer_marks_last_intersecting (s : NavState) (entries : List NavEntry)
    (e : NavEntry) (hlast : lastIntersecting entries = some e)
    (hok : ∀ x ∈ entries, x.isIntersecting = true →
      lookupDot s.dots.length x.dataSection ≠ DotLookup.other) :
    (observerCallback s entries).2 = Run.completed ∧
    (observerCallback s entries).1.dots.length = s.dots.length ∧
    (∀ i : Nat, lookupDot s.dots.length e.dataSection = DotLookup.element i →
      OnlyActive (observerCallback s entries).1.dots (i : Int) ∧ toString i = e.dataSection) ∧
    (lookupDot s.dots.length e.dataSection = DotLookup.undefined →
      ∀ i : Nat, (observerCallback s entries).1.dots[i]? ≠ some true) := by
  obtain ⟨h1, h2, h3⟩ := observerCallback_last entries s e hlast hok
  rw [h2]
  refine ⟨h1, processEntry_length s e, ?_, ?_⟩
  · intro i hi
    obtain ⟨hlt, hkey⟩ := lookupDot_element _ _ _ hi
    refine ⟨?_, hkey⟩
    simp only [processEntry, h3, if_true, hi]
    exact onlyActive_set s.dots i hlt
  · intro hu i
    simp only [processEntry, h3, if_true, hu]
    exact cleared_none s.dots i

/-- A batch for C16: three sections and three dots, the second and third entries
intersecting, the last of them for the section bound to dot 1. -/
theorem observer_marks_last_intersecting_witness :
    lastIntersecting [NavEntry.mk 0 "0" false, NavEntry.mk 2 "2" true, NavEntry.mk 1 "1" true]
      = some (NavEntry.mk 1 "1" true) ∧
    OnlyActive
      (observerCallback (NavState.mk [true, false, false] [true, false, false])
        [NavEntry.mk 0 "0" false, NavEntry.mk 2 "2" true, NavEntry.mk 1 "1" true]).1.dots 1 :=
  ⟨by decide,
   ((observer_marks_last_intersecting (NavState.mk [true, false, false] [true, false, false])
      [NavEntry.mk 0 "0" false, NavEntry.mk 2 "2" true, NavEntry.mk 1 "1" true]
      (NavEntry.mk 1 "1" true) (by decide) (by decide)).2.2.1 1 (by decide)).1⟩

end ParallelFutures
